import Mathlib

/-!
# Pomodoro timer for the M5 PaperS3: embedding of `src/main.cpp`

The sketch keeps its whole state in global variables and drives it from one
cooperative `loop()`.  The embedding below makes that state an explicit record
and turns every function of the sketch into a pure state transformer.

Conventions of the embedding

* `int` variables are `Int`; `unsigned long` time stamps are `Nat` values below
  `2 ^ 32`, and the unsigned subtraction of the source is `usub`.
* The wall clock is the field `clock` (milliseconds since boot, unbounded);
  `millis()` reads it modulo `2 ^ 32`, `delay(ms)` advances it, and everything
  else takes no time.  Time that passes between two calls is `advance`.
* The e-paper panel is one colour per ring dot, addressed by the dot index the
  source passes to `updateOuterDot` / `updateInnerDot` (the trigonometry that
  turns an index into pixel coordinates is not modelled).  `fillScreen` paints
  every dot.
* Every other call into the M5 library is recorded, in program order, in the
  field `log`.
* Battery polling (`updateBatteryInfo`) and the body of `loop` are not part of
  the embedding: they read and write nothing the timer, the rings or the
  activity clock depend on.
-/

namespace Pomodoro

/-- Tones of the panel used by the sketch (`TFT_BLACK`, `TFT_WHITE`, `TFT_LIGHTGRAY`). -/
inductive Colour where
  | black
  | white
  | lightGray
  deriving DecidableEq, Repr

/-- Kind of a button, the field `type` of `struct Button` ("icon", "text", "refresh"). -/
inductive ButtonType where
  | icon
  | text
  | refresh
  deriving DecidableEq, Repr

/-- Record `struct Button` of the source. -/
structure Button where
  x : Int
  y : Int
  w : Int
  h : Int
  type : ButtonType
  label : String
  deriving DecidableEq, Repr

/-- Calls into the M5 library other than the painting of a ring dot. -/
inductive Effect where
  | fillScreen (c : Colour)
  | fillRoundRect (x y w h : Int) (c : Colour)
  | fillRect (x y w h : Int) (c : Colour)
  | display
  | drawString (text : String)
  | drawIconButton (x y w h : Int)
  | drawButton (x y w h : Int)
  | drawRefreshButton (x y w h : Int)
  | drawBatteryIcon
  | drawPngFile (x y : Int)
  | tone (freq dur : Nat)
  | delay (ms : Nat)
  | deepSleep
  deriving DecidableEq, Repr

/-- One sample of the touch panel: `M5.Touch.getCount()`, and of
`M5.Touch.getDetail(0)` the fields `wasPressed()`, `x` and `y`. -/
structure Touch where
  count : Nat
  wasPressed : Bool
  x : Int
  y : Int
  deriving DecidableEq, Repr

/-- Global variables of the sketch together with the environment they act on. -/
structure State where
  currentSecond : Int
  currentMinute : Int
  lastSecondUpdate : Nat
  animationRunning : Bool
  timerPaused : Bool
  timerDuration : Int
  lastActivityTime : Nat
  sdCardInitialized : Bool
  buttons : Fin 7 → Button
  /-- Wall clock in milliseconds since boot. -/
  clock : Nat
  /-- Value of `SD.exists("/pomodoro/pomodoro.png")`. -/
  lockImageExists : Bool
  /-- Value of `M5.Display.width()`. -/
  screenWidth : Int
  /-- Value of `M5.Display.height()`. -/
  screenHeight : Int
  /-- Colour of every dot of the outer ring, by dot index. -/
  outer : Int → Colour
  /-- Colour of every dot of the inner ring, by dot index. -/
  inner : Int → Colour
  /-- Library calls made so far, oldest first. -/
  log : List Effect
  /-- Set once `M5.Power.deepSleep()` has been called. -/
  suspended : Bool

/-- Number of values of an `unsigned long` on the ESP32 (32 bits). -/
def ULONG_RANGE : Nat := 4294967296

/-- Constant `SLEEP_TIMEOUT = 5 * 60 * 1000`. -/
def SLEEP_TIMEOUT : Nat := 5 * 60 * 1000

/-- Reading of `millis()`: the wall clock truncated to an `unsigned long`. -/
def millis (s : State) : Nat := s.clock % ULONG_RANGE

/-- Subtraction `a - b` of two `unsigned long` values. -/
def usub (a b : Nat) : Nat := (a % ULONG_RANGE + ULONG_RANGE - b % ULONG_RANGE) % ULONG_RANGE

/-- Time passing between two calls of the sketch. -/
def advance (s : State) (ms : Nat) : State := { s with clock := s.clock + ms }

/-- Library call that paints no ring dot. -/
def emit (s : State) (e : Effect) : State := { s with log := s.log ++ [e] }

/-- Call `delay(ms)`: a blocking wait. -/
def delay (s : State) (ms : Nat) : State :=
  { s with clock := s.clock + ms, log := s.log ++ [Effect.delay ms] }

/-- Call `M5.Display.fillScreen(c)`: every dot takes the colour `c`. -/
def fillScreen (s : State) (c : Colour) : State :=
  { s with outer := fun _ => c, inner := fun _ => c, log := s.log ++ [Effect.fillScreen c] }

/-- Loop `for (int i = 0; i < n; i++) body`. -/
def forLoop (n : Int) (body : State → Int → State) (s : State) : State :=
  (List.range n.toNat).foldl (fun acc (i : Nat) => body acc (Int.ofNat i)) s

/-- Function `updateOuterDot` (lines 84-90). -/
def updateOuterDot (s : State) (dotIndex : Int) (color : Colour) : State :=
  { s with outer := Function.update s.outer dotIndex color }

/-- Function `updateInnerDot` (lines 92-98). -/
def updateInnerDot (s : State) (dotIndex : Int) (color : Colour) : State :=
  { s with inner := Function.update s.inner dotIndex color }

/-- Function `drawCircularTimer` (lines 57-82). -/
def drawCircularTimer (s : State) (minutes : Int) : State :=
  let s := forLoop 60 (fun s i => updateOuterDot s i Colour.black) s
  let s := forLoop minutes (fun s i => updateInnerDot s i Colour.black) s
  let s := emit s (Effect.drawString (toString minutes))
  emit s (Effect.drawString "min")

/-- Function `startAnimation` (lines 100-106). -/
def startAnimation (s : State) : State :=
  { s with
    animationRunning := true
    timerPaused := false
    currentSecond := 0
    currentMinute := 0
    lastSecondUpdate := millis s }

/-- Function `pauseAnimation` (lines 108-110). -/
def pauseAnimation (s : State) : State := { s with timerPaused := true }

/-- Function `resumeAnimation` (lines 112-115). -/
def resumeAnimation (s : State) : State :=
  { s with timerPaused := false, lastSecondUpdate := millis s }

/-- Loops that paint every dot of both rings black (lines 123-129 and 208-214). -/
def resetAllDots (s : State) : State :=
  let s := forLoop 60 (fun s i => updateOuterDot s i Colour.black) s
  forLoop s.timerDuration (fun s i => updateInnerDot s i Colour.black) s

/-- Function `stopAnimation` (lines 117-130). -/
def stopAnimation (s : State) : State :=
  let s := { s with
    animationRunning := false
    timerPaused := false
    currentSecond := 0
    currentMinute := 0 }
  resetAllDots s

/-- Title block drawn under the rings (lines 163-170 and its copies). -/
def drawTitle (s : State) : State :=
  let s := emit s (Effect.drawString "POMODORO")
  emit s (Effect.drawString "epaper")

/-- Function `redrawAllButtons` (lines 324-333). -/
def redrawAllButtons (s : State) : State :=
  let b := s.buttons
  let s := emit s (Effect.drawIconButton (b 0).x (b 0).y (b 0).w (b 0).h)
  let s := emit s (Effect.drawIconButton (b 1).x (b 1).y (b 1).w (b 1).h)
  let s := emit s (Effect.drawIconButton (b 2).x (b 2).y (b 2).w (b 2).h)
  let s := emit s (Effect.drawButton (b 3).x (b 3).y (b 3).w (b 3).h)
  let s := emit s (Effect.drawButton (b 4).x (b 4).y (b 4).w (b 4).h)
  let s := emit s (Effect.drawButton (b 5).x (b 5).y (b 5).w (b 5).h)
  emit s (Effect.drawRefreshButton (b 6).x (b 6).y (b 6).w (b 6).h)

/-- Loops that repaint the dots completed so far (lines 178-186 and 456-463). -/
def redrawCompletedDots (s : State) : State :=
  let s := forLoop s.currentSecond (fun s i => updateOuterDot s (59 - i) Colour.white) s
  forLoop s.currentMinute (fun s i => updateInnerDot s ((s.timerDuration - 1) - i) Colour.white) s

/-- Full refresh every fifth minute (lines 160-186). -/
def fullRefresh (s : State) : State :=
  let s := fillScreen s Colour.white
  let s := drawCircularTimer s s.timerDuration
  let s := drawTitle s
  let s := redrawAllButtons s
  let s := emit s Effect.drawBatteryIcon
  redrawCompletedDots s

/-- Completion of the countdown (lines 191-214). -/
def completeTimer (s : State) : State :=
  let s := { s with animationRunning := false, currentSecond := 0, currentMinute := 0 }
  let s := { s with lastActivityTime := millis s }
  let s := emit s (Effect.tone 600 500)
  let s := delay s 1000
  let s := emit s (Effect.tone 600 500)
  let s := delay s 1000
  let s := emit s (Effect.tone 600 500)
  let s := delay s 1000
  let s := emit s (Effect.tone 600 500)
  resetAllDots s

/-- End of a minute (lines 144-215). -/
def minuteCompleted (s : State) : State :=
  let s := { s with currentSecond := 0, currentMinute := s.currentMinute + 1 }
  let s := forLoop 60 (fun s i => updateOuterDot s i Colour.black) s
  let s :=
    if s.currentMinute ≤ s.timerDuration then
      updateInnerDot s ((s.timerDuration - 1) - (s.currentMinute - 1)) Colour.white
    else s
  let s := if Int.tmod s.currentMinute 5 = 0 then fullRefresh s else s
  if s.currentMinute ≥ s.timerDuration then completeTimer s else s

/-- One more second: the next outer dot turns white (lines 137-140). -/
def secondCompleted (s : State) : State :=
  let dotIndex := 59 - s.currentSecond
  let s := updateOuterDot s dotIndex Colour.white
  { s with currentSecond := s.currentSecond + 1 }

/-- Function `updateAnimation` (lines 132-220). -/
def updateAnimation (s : State) : State :=
  if !s.animationRunning || s.timerPaused then s
  else
    let currentTime := millis s
    if usub currentTime s.lastSecondUpdate ≥ 1000 then
      let s := secondCompleted s
      let s := if s.currentSecond ≥ 60 then minuteCompleted s else s
      { s with lastSecondUpdate := currentTime }
    else s

/-- Play button (lines 345-369). -/
def pressPlay (s : State) : State :=
  let s := emit s (Effect.tone 800 100)
  if !s.animationRunning then
    let s := startAnimation s
    let s := fillScreen s Colour.white
    let s := drawCircularTimer s s.timerDuration
    let s := drawTitle s
    let s := redrawAllButtons s
    emit s Effect.drawBatteryIcon
  else if s.timerPaused then resumeAnimation s
  else s

/-- Pause button (lines 370-375). -/
def pressPause (s : State) : State :=
  let s := emit s (Effect.tone 600 100)
  if s.animationRunning && !s.timerPaused then pauseAnimation s else s

/-- Stop button (lines 376-396). -/
def pressStop (s : State) : State :=
  let s := emit s (Effect.tone 400 100)
  let s := stopAnimation s
  let s := fillScreen s Colour.white
  let s := drawCircularTimer s s.timerDuration
  let s := drawTitle s
  let s := redrawAllButtons s
  emit s Effect.drawBatteryIcon

/-- Preset buttons "25Min", "5Min" and "30Min" (lines 397-420), which differ
only in the duration they assign. -/
def pressPreset (s : State) (minutes : Int) : State :=
  let s := { s with timerDuration := minutes }
  let s := stopAnimation s
  let s := fillScreen s Colour.white
  let s := drawCircularTimer s s.timerDuration
  emit s Effect.display

/-- Refresh button (lines 421-468). -/
def pressRefresh (s : State) : State :=
  let s := emit s (Effect.tone 500 100)
  let s := fillScreen s Colour.black
  let s := emit s Effect.display
  let s := delay s 100
  let s := fillScreen s Colour.white
  let s := emit s Effect.display
  let s := delay s 100
  let s := drawCircularTimer s s.timerDuration
  let s := drawTitle s
  let s := redrawAllButtons s
  let s := emit s Effect.drawBatteryIcon
  let s := if s.animationRunning then redrawCompletedDots s else s
  emit s Effect.display

/-- Redraw that ends `handleButtonPress` (lines 471-496). -/
def redrawAfterPress (s : State) (buttonIndex : Fin 7) : State :=
  let b := s.buttons buttonIndex
  if 3 ≤ buttonIndex.val ∧ buttonIndex.val ≤ 5 then
    let s := drawTitle s
    let s := redrawAllButtons s
    emit s Effect.drawBatteryIcon
  else if buttonIndex.val ≠ 6 then
    if b.type = ButtonType.icon then
      let s := emit s (Effect.fillRoundRect b.x b.y b.w b.h Colour.white)
      emit s (Effect.drawIconButton b.x b.y b.w b.h)
    else emit s (Effect.drawButton b.x b.y b.w b.h)
  else s

/-- Activity stamp and visual feedback that open `handleButtonPress`
(lines 336-342). -/
def pressFeedback (s : State) (buttonIndex : Fin 7) : State :=
  let s := { s with lastActivityTime := millis s }
  let b := s.buttons buttonIndex
  let s := emit s (Effect.fillRoundRect b.x b.y b.w b.h Colour.lightGray)
  delay s 200

/-- Function `handleButtonPress` (lines 335-497); `buttonIndex` indexes the
array `buttons[7]`. -/
def handleButtonPress (s : State) (buttonIndex : Fin 7) : State :=
  let s := pressFeedback s buttonIndex
  let s :=
    match buttonIndex.val with
    | 0 => pressPlay s
    | 1 => pressPause s
    | 2 => pressStop s
    | 3 => pressPreset s 25
    | 4 => pressPreset s 5
    | 5 => pressPreset s 30
    | 6 => pressRefresh s
    | _ => s
  redrawAfterPress s buttonIndex

/-- Hit test of line 507-508 for one button. -/
def touchInside (b : Button) (x y : Int) : Bool :=
  decide (x ≥ b.x) && decide (x ≤ b.x + b.w) && decide (y ≥ b.y) && decide (y ≤ b.y + b.h)

/-- Index at which the loop of lines 506-516 stops: the first button hit. -/
def firstButtonHit (buttons : Fin 7 → Button) (x y : Int) : Option (Fin 7) :=
  ([0, 1, 2, 3, 4, 5, 6] : List (Fin 7)).find? (fun i => touchInside (buttons i) x y)

/-- Function `checkButtonTouch` (lines 499-519). -/
def checkButtonTouch (s : State) (touch : Touch) : State :=
  if touch.count > 0 then
    if touch.wasPressed then
      let s := { s with lastActivityTime := millis s }
      match firstButtonHit s.buttons touch.x touch.y with
      | some i => handleButtonPress s i
      | none => s
    else s
  else s

/-- Function `displayLockScreen` (lines 521-550). -/
def displayLockScreen (s : State) : State :=
  if s.sdCardInitialized then
    let s := fillScreen s Colour.white
    let s :=
      if s.lockImageExists then
        let imageSize : Int := 540
        let x := Int.tdiv (s.screenWidth - imageSize) 2
        let y := Int.tdiv (s.screenHeight - imageSize) 2
        emit s (Effect.drawPngFile x y)
      else
        let s := emit s (Effect.drawString "POMODORO")
        emit s (Effect.drawString "Sleep Mode")
    delay s 2000
  else s

/-- Call `M5.Power.deepSleep()`. -/
def deepSleep (s : State) : State :=
  { s with suspended := true, log := s.log ++ [Effect.deepSleep] }

/-- Function `checkDeepSleep` (lines 552-564). -/
def checkDeepSleep (s : State) : State :=
  if !s.animationRunning && !s.timerPaused then
    let currentTime := millis s
    if usub currentTime s.lastActivityTime > SLEEP_TIMEOUT then
      let s := displayLockScreen s
      deepSleep s
    else s
  else s

/-- Button table filled in by `setup` (lines 620-642). -/
def setupButtons (screenWidth screenHeight : Int) : Fin 7 → Button :=
  let buttonWidth : Int := 120
  let buttonHeight : Int := 60
  let buttonSpacing : Int := 30
  let verticalSpacing : Int := 30
  let startX := Int.tdiv (screenWidth - (3 * buttonWidth + 2 * buttonSpacing)) 2
  let row1Y := screenHeight - 180
  let row2Y := row1Y + buttonHeight + verticalSpacing
  let refreshSize : Int := 40
  fun i =>
    match i.val with
    | 0 => ⟨startX, row1Y, buttonWidth, buttonHeight, ButtonType.icon, "play"⟩
    | 1 => ⟨startX + buttonWidth + buttonSpacing, row1Y, buttonWidth, buttonHeight,
        ButtonType.icon, "pause"⟩
    | 2 => ⟨startX + 2 * (buttonWidth + buttonSpacing), row1Y, buttonWidth, buttonHeight,
        ButtonType.icon, "stop"⟩
    | 3 => ⟨startX, row2Y, buttonWidth, buttonHeight, ButtonType.text, "25Min"⟩
    | 4 => ⟨startX + buttonWidth + buttonSpacing, row2Y, buttonWidth, buttonHeight,
        ButtonType.text, "5Min"⟩
    | 5 => ⟨startX + 2 * (buttonWidth + buttonSpacing), row2Y, buttonWidth, buttonHeight,
        ButtonType.text, "30Min"⟩
    | _ => ⟨screenWidth - refreshSize - 10, 10, refreshSize, refreshSize,
        ButtonType.refresh, "refresh"⟩

/-- Global initialisers of the sketch (lines 19-55) on a panel of the given
size, at wall-clock time `bootClock`; the panel starts blank. -/
def powerOn (screenWidth screenHeight : Int) (imageOnCard : Bool) (bootClock : Nat) : State :=
  { currentSecond := 0
    currentMinute := 0
    lastSecondUpdate := 0
    animationRunning := false
    timerPaused := false
    timerDuration := 25
    lastActivityTime := 0
    sdCardInitialized := false
    buttons := fun _ => ⟨0, 0, 0, 0, ButtonType.text, ""⟩
    clock := bootClock
    lockImageExists := imageOnCard
    screenWidth := screenWidth
    screenHeight := screenHeight
    outer := fun _ => Colour.white
    inner := fun _ => Colour.white
    log := []
    suspended := false }

/-- Function `setup` (lines 566-659); `sdBegin` is the result of `SD.begin`. -/
def setup (screenWidth screenHeight : Int) (sdBegin imageOnCard : Bool) (bootClock : Nat) :
    State :=
  let s := powerOn screenWidth screenHeight imageOnCard bootClock
  let s := fillScreen s Colour.white
  let s := { s with sdCardInitialized := sdBegin }
  let s := { s with lastActivityTime := millis s }
  let s := drawCircularTimer s 25
  let s := drawTitle s
  let s := { s with buttons := setupButtons screenWidth screenHeight }
  let s := redrawAllButtons s
  emit s Effect.drawBatteryIcon

/-- States the sketch can be in between two calls made from `loop`: after
`setup`, any sequence of button presses, touch polls, `updateAnimation` calls
and waits.  `checkDeepSleep` is left out because a deep sleep ends the
execution: the next wake-up starts again from `setup`. -/
inductive Reachable : State → Prop where
  | boot (screenWidth screenHeight : Int) (sdBegin imageOnCard : Bool) (bootClock : Nat) :
      Reachable (setup screenWidth screenHeight sdBegin imageOnCard bootClock)
  | press {s : State} (i : Fin 7) : Reachable s → Reachable (handleButtonPress s i)
  | touch {s : State} (t : Touch) : Reachable s → Reachable (checkButtonTouch s t)
  | update {s : State} : Reachable s → Reachable (updateAnimation s)
  | wait {s : State} (ms : Nat) : Reachable s → Reachable (advance s ms)

/-- Run of `updateAnimation` calls, the `i`-th made `ds[i]` milliseconds after
the call before it. -/
def runCalls (s : State) (ds : List Nat) : State :=
  ds.foldl (fun acc d => updateAnimation (advance acc d)) s

/-- Ticks counted so far: `currentMinute * 60 + currentSecond`. -/
def ticksCounted (s : State) : Int := s.currentMinute * 60 + s.currentSecond

/-- Number of dots with index `0 .. n-1` that are filled, that is white. -/
def filledCount (ring : Int → Colour) (n : Int) : Int :=
  (((List.range n.toNat).filter
    (fun (i : Nat) => decide (ring (Int.ofNat i) = Colour.white))).length : Int)

/-- Whether a library call is a full-screen repaint. -/
def isFullRepaint : Effect → Bool
  | Effect.fillScreen _ => true
  | _ => false

/-- Number of full-screen repaints in a log. -/
def fullRepaints (log : List Effect) : Nat := (log.filter isFullRepaint).length

/-- Whether a library call is a tone. -/
def isTone : Effect → Bool
  | Effect.tone _ _ => true
  | _ => false

/-- Number of tones in a log. -/
def toneCount (log : List Effect) : Nat := (log.filter isTone).length

/-- A PaperS3 in portrait mode (540 x 960) just after `setup`, with an SD card
holding the lock image, booted at time 0. -/
def paperS3 : State := setup 540 960 true true 0

/-- Conditions under which a call of `updateAnimation` performs a tick: the
timer is running, not paused, and at least 1000 ms have elapsed since
`lastSecondUpdate`. -/
def Ticks (s : State) : Prop :=
  s.animationRunning = true ∧ s.timerPaused = false ∧ 1000 ≤ usub (millis s) s.lastSecondUpdate

/-- Library calls that draw the title, the seven buttons and the battery icon. -/
def chromeLog (s : State) : List Effect :=
  let b := s.buttons
  [Effect.drawString "POMODORO", Effect.drawString "epaper",
    Effect.drawIconButton (b 0).x (b 0).y (b 0).w (b 0).h,
    Effect.drawIconButton (b 1).x (b 1).y (b 1).w (b 1).h,
    Effect.drawIconButton (b 2).x (b 2).y (b 2).w (b 2).h,
    Effect.drawButton (b 3).x (b 3).y (b 3).w (b 3).h,
    Effect.drawButton (b 4).x (b 4).y (b 4).w (b 4).h,
    Effect.drawButton (b 5).x (b 5).y (b 5).w (b 5).h,
    Effect.drawRefreshButton (b 6).x (b 6).y (b 6).w (b 6).h,
    Effect.drawBatteryIcon]

/-- Library calls of the completion signal (lines 200-206). -/
def completionLog : List Effect :=
  [Effect.tone 600 500, Effect.delay 1000, Effect.tone 600 500, Effect.delay 1000,
    Effect.tone 600 500, Effect.delay 1000, Effect.tone 600 500]

/-- Whether every call of the run `runCalls s ds` finds at least 1000 ms
elapsed since `lastSecondUpdate`, that is, whether every call is a tick. -/
def everyCallTicks (s : State) : List Nat → Bool
  | [] => true
  | d :: ds =>
    decide (1000 ≤ usub (millis (advance s d)) (advance s d).lastSecondUpdate)
      && everyCallTicks (updateAnimation (advance s d)) ds

/-- A countdown of `D` minutes that is running, with `k` ticks counted. -/
structure RunInv (D k : Int) (s : State) : Prop where
  running : s.animationRunning = true
  notPaused : s.timerPaused = false
  duration : s.timerDuration = D
  secLo : 0 ≤ s.currentSecond
  secHi : s.currentSecond ≤ 59
  minLo : 0 ≤ s.currentMinute
  minHi : s.currentMinute < D
  count : ticksCounted s = k

/-- Whole seconds of wall-clock time between two states of one execution. -/
def wholeSecondsElapsed (start s : State) : Int := (((s.clock - start.clock) / 1000 : Nat) : Int)

/-- Bound kept by a countdown started at wall-clock time `c0`: while it runs,
the ticks counted so far fit into the time up to the last tick, which was taken
at some wall-clock time `L` not later than now. -/
def TickBound (c0 : Nat) (s : State) : Prop :=
  s.animationRunning = true →
    s.timerPaused = false ∧ 0 ≤ s.currentSecond ∧ s.currentSecond ≤ 59 ∧ 0 ≤ s.currentMinute
    ∧ ∃ L : Nat, c0 ≤ L ∧ L ≤ s.clock ∧ s.lastSecondUpdate = L % ULONG_RANGE
        ∧ 1000 * ticksCounted s ≤ (L : Int) - c0

/-- Invariant of the sketch between two calls made from `loop`. -/
structure Inv (s : State) : Prop where
  dur : s.timerDuration = 5 ∨ s.timerDuration = 25 ∨ s.timerDuration = 30
  secLo : 0 ≤ s.currentSecond
  secHi : s.currentSecond ≤ 59
  minLo : 0 ≤ s.currentMinute
  minHi : s.currentMinute < s.timerDuration
  idle : s.animationRunning = false → s.currentSecond = 0 ∧ s.currentMinute = 0
  paused : s.timerPaused = true → s.animationRunning = true
  outerDots : ∀ j, 0 ≤ j → j < 60 → (s.outer j = Colour.white ↔ 60 - s.currentSecond ≤ j)
  innerDots : ∀ j, 0 ≤ j → j < s.timerDuration →
    (s.inner j = Colour.white ↔ s.timerDuration - s.currentMinute ≤ j)

/-- Whether a library call is `M5.Power.deepSleep()`. -/
def isDeepSleep : Effect → Bool
  | Effect.deepSleep => true
  | _ => false

/-- Number of deep-sleep calls in a log. -/
def deepSleeps (log : List Effect) : Nat := (log.filter isDeepSleep).length

/-- Condition of lines 554-556: the timer is neither running nor paused and
more than `SLEEP_TIMEOUT` ms have elapsed since `lastActivityTime`. -/
def sleepDue (s : State) : Prop :=
  s.animationRunning = false ∧ s.timerPaused = false
    ∧ SLEEP_TIMEOUT < usub (millis s) s.lastActivityTime

instance (s : State) : Decidable (sleepDue s) := by
  unfold sleepDue
  infer_instance

/-- Bound kept, after every call, by a countdown started at wall-clock time
`c0` and polled at most every `g` ms: while it runs, the last tick was taken at
a wall-clock time `L` less than a second ago, and each tick counted so far took
at most `999 + g` ms. -/
def GapBound (c0 g : Nat) (s : State) : Prop :=
  s.animationRunning = true →
    s.timerPaused = false ∧ 0 ≤ s.currentSecond ∧ s.currentSecond ≤ 59 ∧ 0 ≤ s.currentMinute
    ∧ ∃ L : Nat, c0 ≤ L ∧ L ≤ s.clock ∧ s.clock ≤ L + 999
        ∧ s.lastSecondUpdate = L % ULONG_RANGE
        ∧ (L : Int) - c0 ≤ ticksCounted s * (999 + (g : Int))

/-! ## Loops over ring dots -/

theorem mem_map_cast_range (j : Int) (n : Nat) :
    j ∈ (List.range n).map (fun i : Nat => (i : Int)) ↔ 0 ≤ j ∧ j < n := by
  simp only [List.mem_map, List.mem_range]
  constructor
  · rintro ⟨i, hi, rfl⟩
    omega
  · rintro ⟨h0, hn⟩
    exact ⟨j.toNat, by omega, by omega⟩

theorem mem_map_sub_range (a j : Int) (n : Nat) :
    j ∈ (List.range n).map (fun i : Nat => a - (i : Int)) ↔ a - n < j ∧ j ≤ a := by
  simp only [List.mem_map, List.mem_range]
  constructor
  · rintro ⟨i, hi, rfl⟩
    omega
  · rintro ⟨h0, hn⟩
    exact ⟨(a - j).toNat, by omega, by omega⟩

theorem foldl_updateOuterDot (l : List Nat) (g : Nat → Int) (c : Colour) (s : State) :
    l.foldl (fun acc i => updateOuterDot acc (g i) c) s
      = { s with outer := fun j => if j ∈ l.map g then c else s.outer j } := by
  induction l generalizing s with
  | nil => simp
  | cons a l ih =>
    rw [List.foldl_cons, ih]
    simp only [updateOuterDot, List.map_cons, List.mem_cons]
    congr 1
    funext j
    by_cases hj : j ∈ l.map g
    · simp [hj]
    · by_cases ha : j = g a
      · subst ha
        simp
      · simp [hj, ha, Function.update_apply]

theorem foldl_updateInnerDot (l : List Nat) (g : Int → Nat → Int) (c : Colour) (s : State) :
    l.foldl (fun acc i => updateInnerDot acc (g acc.timerDuration i) c) s
      = { s with inner := fun j => if j ∈ l.map (g s.timerDuration) then c else s.inner j } := by
  induction l generalizing s with
  | nil => simp
  | cons a l ih =>
    rw [List.foldl_cons, ih]
    simp only [updateInnerDot, List.map_cons, List.mem_cons]
    congr 1
    funext j
    by_cases hj : j ∈ l.map (g s.timerDuration)
    · simp [hj]
    · by_cases ha : j = g s.timerDuration a
      · subst ha
        simp
      · simp [hj, ha, Function.update_apply]

/-- Loop painting the outer dots `0 .. n-1`. -/
theorem forLoop_outer_up (n : Int) (c : Colour) (s : State) :
    forLoop n (fun s i => updateOuterDot s i c) s
      = { s with outer := fun j => if 0 ≤ j ∧ j < n then c else s.outer j } := by
  unfold forLoop
  rw [show (fun acc (i : Nat) => (fun s i => updateOuterDot s i c) acc (Int.ofNat i))
      = (fun acc i => updateOuterDot acc ((fun i : Nat => (i : Int)) i) c) from rfl,
    foldl_updateOuterDot (List.range n.toNat) (fun i => (i : Int)) c s]
  congr 1
  funext j
  exact if_congr (by rw [mem_map_cast_range]; omega) rfl rfl

/-- Loop painting the inner dots `0 .. n-1`. -/
theorem forLoop_inner_up (n : Int) (c : Colour) (s : State) :
    forLoop n (fun s i => updateInnerDot s i c) s
      = { s with inner := fun j => if 0 ≤ j ∧ j < n then c else s.inner j } := by
  unfold forLoop
  rw [show (fun acc (i : Nat) => (fun s i => updateInnerDot s i c) acc (Int.ofNat i))
      = (fun acc i => updateInnerDot acc ((fun (_ : Int) (i : Nat) => (i : Int)) acc.timerDuration i) c)
      from rfl,
    foldl_updateInnerDot (List.range n.toNat) (fun _ i => (i : Int)) c s]
  congr 1
  funext j
  exact if_congr (by rw [mem_map_cast_range]; omega) rfl rfl

/-- Loop painting the outer dots `59, 58, .., 60 - n`. -/
theorem forLoop_outer_down (n : Int) (c : Colour) (s : State) :
    forLoop n (fun s i => updateOuterDot s (59 - i) c) s
      = { s with outer := fun j => if 0 ≤ n ∧ 60 - n ≤ j ∧ j ≤ 59 then c else s.outer j } := by
  unfold forLoop
  rw [show (fun acc (i : Nat) => (fun s i => updateOuterDot s (59 - i) c) acc (Int.ofNat i))
      = (fun acc i => updateOuterDot acc ((fun i : Nat => 59 - (i : Int)) i) c) from rfl,
    foldl_updateOuterDot (List.range n.toNat) (fun i => 59 - (i : Int)) c s]
  congr 1
  funext j
  exact if_congr (by rw [mem_map_sub_range]; omega) rfl rfl

/-- Loop painting the inner dots `timerDuration - 1, .., timerDuration - n`. -/
theorem forLoop_inner_down (n : Int) (c : Colour) (s : State) :
    forLoop n (fun s i => updateInnerDot s ((s.timerDuration - 1) - i) c) s
      = { s with inner := fun j =>
            if 0 ≤ n ∧ s.timerDuration - n ≤ j ∧ j ≤ s.timerDuration - 1 then c
            else s.inner j } := by
  unfold forLoop
  rw [show (fun acc (i : Nat) =>
        (fun s i => updateInnerDot s ((s.timerDuration - 1) - i) c) acc (Int.ofNat i))
      = (fun acc i => updateInnerDot acc
          ((fun (d : Int) (i : Nat) => (d - 1) - (i : Int)) acc.timerDuration i) c) from rfl,
    foldl_updateInnerDot (List.range n.toNat) (fun d i => (d - 1) - (i : Int)) c s]
  congr 1
  funext j
  exact if_congr (by rw [mem_map_sub_range]; omega) rfl rfl

/-! ## Normal forms of the building blocks -/

theorem updateAnimation_idle (s : State)
    (h : s.animationRunning = false ∨ s.timerPaused = true) : updateAnimation s = s := by
  unfold updateAnimation
  rcases h with h | h <;> simp [h]

theorem updateAnimation_early (s : State)
    (h : usub (millis s) s.lastSecondUpdate < 1000) : updateAnimation s = s := by
  unfold updateAnimation
  have : ¬ usub (millis s) s.lastSecondUpdate ≥ 1000 := by omega
  simp [this]

theorem tick_second (s : State) (h : Ticks s) (hs : s.currentSecond + 1 < 60) :
    updateAnimation s = { secondCompleted s with lastSecondUpdate := millis s } := by
  obtain ⟨h1, h2, h3⟩ := h
  have hs' : ¬ (60 ≤ s.currentSecond + 1) := by omega
  simp [updateAnimation, h1, h2, h3, secondCompleted, updateOuterDot, hs']

theorem tick_minute (s : State) (h : Ticks s) (hs : 60 ≤ s.currentSecond + 1) :
    updateAnimation s
      = { minuteCompleted (secondCompleted s) with lastSecondUpdate := millis s } := by
  obtain ⟨h1, h2, h3⟩ := h
  have hs' : 60 ≤ (secondCompleted s).currentSecond := by
    simpa [secondCompleted, updateOuterDot] using hs
  simp [updateAnimation, h1, h2, h3, hs']

theorem resetAllDots_eq (s : State) :
    resetAllDots s =
      { s with
        outer := fun j => if 0 ≤ j ∧ j < 60 then Colour.black else s.outer j
        inner := fun j => if 0 ≤ j ∧ j < s.timerDuration then Colour.black else s.inner j } := by
  simp only [resetAllDots, forLoop_outer_up, forLoop_inner_up]

theorem drawCircularTimer_eq (s : State) (minutes : Int) :
    drawCircularTimer s minutes =
      { s with
        outer := fun j => if 0 ≤ j ∧ j < 60 then Colour.black else s.outer j
        inner := fun j => if 0 ≤ j ∧ j < minutes then Colour.black else s.inner j
        log := s.log ++ [Effect.drawString (toString minutes), Effect.drawString "min"] } := by
  simp only [drawCircularTimer, forLoop_outer_up, forLoop_inner_up, emit, List.append_assoc,
    List.singleton_append]

theorem redrawCompletedDots_eq (s : State) :
    redrawCompletedDots s =
      { s with
        outer := fun j =>
          if 0 ≤ s.currentSecond ∧ 60 - s.currentSecond ≤ j ∧ j ≤ 59 then Colour.white
          else s.outer j
        inner := fun j =>
          if 0 ≤ s.currentMinute ∧ s.timerDuration - s.currentMinute ≤ j
              ∧ j ≤ s.timerDuration - 1 then Colour.white
          else s.inner j } := by
  simp only [redrawCompletedDots, forLoop_outer_down, forLoop_inner_down]

theorem chrome_eq (s : State) :
    emit (redrawAllButtons (drawTitle s)) Effect.drawBatteryIcon
      = { s with log := s.log ++ chromeLog s } := by
  simp [redrawAllButtons, drawTitle, emit, chromeLog]

theorem fullRefresh_eq (s : State) :
    fullRefresh s =
      { s with
        outer := fun j =>
          if 0 ≤ s.currentSecond ∧ 60 - s.currentSecond ≤ j ∧ j ≤ 59 then Colour.white
          else if 0 ≤ j ∧ j < 60 then Colour.black else Colour.white
        inner := fun j =>
          if 0 ≤ s.currentMinute ∧ s.timerDuration - s.currentMinute ≤ j
              ∧ j ≤ s.timerDuration - 1 then Colour.white
          else if 0 ≤ j ∧ j < s.timerDuration then Colour.black else Colour.white
        log := s.log ++ [Effect.fillScreen Colour.white,
          Effect.drawString (toString s.timerDuration), Effect.drawString "min"]
          ++ chromeLog s } := by
  unfold fullRefresh
  simp only [chrome_eq, drawCircularTimer_eq, redrawCompletedDots_eq, fillScreen]
  simp [chromeLog]

theorem completeTimer_eq (s : State) :
    completeTimer s =
      { s with
        animationRunning := false
        currentSecond := 0
        currentMinute := 0
        lastActivityTime := millis s
        clock := s.clock + 3000
        outer := fun j => if 0 ≤ j ∧ j < 60 then Colour.black else s.outer j
        inner := fun j => if 0 ≤ j ∧ j < s.timerDuration then Colour.black else s.inner j
        log := s.log ++ completionLog } := by
  unfold completeTimer
  simp only [resetAllDots_eq, emit, delay, millis]
  simp [Nat.add_assoc, completionLog]

theorem minuteCompleted_core (t : State) :
    (minuteCompleted t).timerDuration = t.timerDuration
    ∧ (minuteCompleted t).timerPaused = t.timerPaused
    ∧ (minuteCompleted t).lastSecondUpdate = t.lastSecondUpdate
    ∧ (minuteCompleted t).currentSecond = 0
    ∧ (t.timerDuration ≤ t.currentMinute + 1 →
        (minuteCompleted t).animationRunning = false
        ∧ (minuteCompleted t).currentMinute = 0
        ∧ (minuteCompleted t).lastActivityTime = millis t
        ∧ (minuteCompleted t).clock = t.clock + 3000)
    ∧ (t.currentMinute + 1 < t.timerDuration →
        (minuteCompleted t).animationRunning = t.animationRunning
        ∧ (minuteCompleted t).currentMinute = t.currentMinute + 1
        ∧ (minuteCompleted t).lastActivityTime = t.lastActivityTime
        ∧ (minuteCompleted t).clock = t.clock) := by
  by_cases h1 : t.currentMinute + 1 ≤ t.timerDuration <;>
  by_cases h2 : Int.tmod (t.currentMinute + 1) 5 = 0 <;>
  by_cases h3 : t.timerDuration ≤ t.currentMinute + 1 <;>
  simp [minuteCompleted, forLoop_outer_up, updateInnerDot, fullRefresh_eq, completeTimer_eq,
    h1, h2, h3, millis]

theorem minuteCompleted_log (t : State) :
    (minuteCompleted t).log =
      t.log
        ++ (if Int.tmod (t.currentMinute + 1) 5 = 0 then
              [Effect.fillScreen Colour.white, Effect.drawString (toString t.timerDuration),
                Effect.drawString "min"] ++ chromeLog t
            else [])
        ++ (if t.timerDuration ≤ t.currentMinute + 1 then completionLog else []) := by
  by_cases h1 : t.currentMinute + 1 ≤ t.timerDuration <;>
  by_cases h2 : Int.tmod (t.currentMinute + 1) 5 = 0 <;>
  by_cases h3 : t.timerDuration ≤ t.currentMinute + 1 <;>
  simp [minuteCompleted, forLoop_outer_up, updateInnerDot, fullRefresh_eq, completeTimer_eq,
    h1, h2, h3, chromeLog]

theorem minuteCompleted_outer (t : State) (j : Int) (h0 : 0 ≤ j) (h60 : j < 60) :
    (minuteCompleted t).outer j = Colour.black := by
  by_cases h1 : t.currentMinute + 1 ≤ t.timerDuration <;>
  by_cases h2 : Int.tmod (t.currentMinute + 1) 5 = 0 <;>
  by_cases h3 : t.timerDuration ≤ t.currentMinute + 1 <;>
  simp [minuteCompleted, forLoop_outer_up, updateInnerDot, fullRefresh_eq, completeTimer_eq,
    h1, h2, h3, h0, h60]

theorem minuteCompleted_inner_done (t : State) (j : Int) (h0 : 0 ≤ j) (hD : j < t.timerDuration)
    (h3 : t.timerDuration ≤ t.currentMinute + 1) :
    (minuteCompleted t).inner j = Colour.black := by
  by_cases h1 : t.currentMinute + 1 ≤ t.timerDuration <;>
  by_cases h2 : Int.tmod (t.currentMinute + 1) 5 = 0 <;>
  simp [minuteCompleted, forLoop_outer_up, updateInnerDot, fullRefresh_eq, completeTimer_eq,
    h1, h2, h3, h0, hD]

theorem minuteCompleted_inner_next (t : State) (j : Int) (h0 : 0 ≤ j) (hD : j < t.timerDuration)
    (h3 : t.currentMinute + 1 < t.timerDuration) (hm : 0 ≤ t.currentMinute)
    (hinv : t.inner j = Colour.white ↔ t.timerDuration - t.currentMinute ≤ j) :
    (minuteCompleted t).inner j = Colour.white
      ↔ t.timerDuration - (t.currentMinute + 1) ≤ j := by
  have h1 : t.currentMinute + 1 ≤ t.timerDuration := by omega
  have h3' : ¬ t.timerDuration ≤ t.currentMinute + 1 := by omega
  by_cases h2 : Int.tmod (t.currentMinute + 1) 5 = 0
  · simp [minuteCompleted, forLoop_outer_up, updateInnerDot, fullRefresh_eq, completeTimer_eq,
      h1, h2, h3']
    omega
  · simp [minuteCompleted, forLoop_outer_up, updateInnerDot, fullRefresh_eq, completeTimer_eq,
      h1, h2, h3']
    by_cases hj : j = t.timerDuration - 1 - t.currentMinute
    · subst hj
      simp
      omega
    · rw [Function.update_noteq hj, hinv]
      omega


/-! ## Runs of ticks -/

/-- Fields of the state after a tick, in its three cases: the minute goes on,
the minute ends, the countdown ends. -/
theorem tick_core (t : State) (hT : Ticks t) :
    (updateAnimation t).timerDuration = t.timerDuration
    ∧ (updateAnimation t).timerPaused = false
    ∧ (updateAnimation t).lastSecondUpdate = millis t
    ∧ (t.currentSecond + 1 < 60 →
        (updateAnimation t).animationRunning = true
        ∧ (updateAnimation t).currentSecond = t.currentSecond + 1
        ∧ (updateAnimation t).currentMinute = t.currentMinute
        ∧ (updateAnimation t).lastActivityTime = t.lastActivityTime
        ∧ (updateAnimation t).clock = t.clock
        ∧ (updateAnimation t).log = t.log)
    ∧ (60 ≤ t.currentSecond + 1 → t.currentMinute + 1 < t.timerDuration →
        (updateAnimation t).animationRunning = true
        ∧ (updateAnimation t).currentSecond = 0
        ∧ (updateAnimation t).currentMinute = t.currentMinute + 1
        ∧ (updateAnimation t).lastActivityTime = t.lastActivityTime
        ∧ (updateAnimation t).clock = t.clock)
    ∧ (60 ≤ t.currentSecond + 1 → t.timerDuration ≤ t.currentMinute + 1 →
        (updateAnimation t).animationRunning = false
        ∧ (updateAnimation t).currentSecond = 0
        ∧ (updateAnimation t).currentMinute = 0
        ∧ (updateAnimation t).lastActivityTime = millis t
        ∧ (updateAnimation t).clock = t.clock + 3000) := by
  by_cases hs : t.currentSecond + 1 < 60
  · rw [tick_second t hT hs]
    have hs' : ¬ 60 ≤ t.currentSecond + 1 := by omega
    simp [secondCompleted, updateOuterDot, hT.1, hT.2.1, hs, hs']
  · have hs' : 60 ≤ t.currentSecond + 1 := by omega
    rw [tick_minute t hT hs']
    obtain ⟨c1, c2, c3, c4, c5, c6⟩ := minuteCompleted_core (secondCompleted t)
    have f1 : (secondCompleted t).timerDuration = t.timerDuration := rfl
    have f2 : (secondCompleted t).timerPaused = t.timerPaused := rfl
    have f3 : (secondCompleted t).currentMinute = t.currentMinute := rfl
    have f4 : (secondCompleted t).animationRunning = t.animationRunning := rfl
    have f5 : (secondCompleted t).lastActivityTime = t.lastActivityTime := rfl
    have f6 : (secondCompleted t).clock = t.clock := rfl
    have f7 : millis (secondCompleted t) = millis t := rfl
    rw [f1] at c1
    rw [f2, hT.2.1] at c2
    rw [f1, f3, f7, f6] at c5
    rw [f1, f3, f4, f5, f6, hT.1] at c6
    refine ⟨c1, c2, rfl, fun h => absurd h hs, fun _ h => ?_, fun _ h => ?_⟩
    · obtain ⟨d1, d2, d3, d4⟩ := c6 h
      exact ⟨d1, c4, d2, d3, d4⟩
    · obtain ⟨d1, d2, d3, d4⟩ := c5 h
      exact ⟨d1, c4, d2, d3, d4⟩

/-- Tones sounded by a tick: four when it ends the countdown, none otherwise. -/
theorem tick_tones (t : State) (hT : Ticks t) :
    toneCount (updateAnimation t).log
      = toneCount t.log
        + (if 60 ≤ t.currentSecond + 1 ∧ t.timerDuration ≤ t.currentMinute + 1 then 4 else 0) := by
  by_cases hs : t.currentSecond + 1 < 60
  · rw [tick_second t hT hs]
    have hs' : ¬ 60 ≤ t.currentSecond + 1 := by omega
    simp [secondCompleted, updateOuterDot, hs']
  · have hs' : 60 ≤ t.currentSecond + 1 := by omega
    rw [tick_minute t hT hs']
    have hl := minuteCompleted_log (secondCompleted t)
    have f1 : (secondCompleted t).timerDuration = t.timerDuration := rfl
    have f3 : (secondCompleted t).currentMinute = t.currentMinute := rfl
    have f8 : (secondCompleted t).log = t.log := rfl
    rw [f1, f3, f8] at hl
    show toneCount (minuteCompleted (secondCompleted t)).log = _
    rw [hl]
    by_cases h2 : Int.tmod (t.currentMinute + 1) 5 = 0 <;>
    by_cases h3 : t.timerDuration ≤ t.currentMinute + 1 <;>
    simp [toneCount, isTone, chromeLog, completionLog, List.filter_append, h2, h3, hs']

/-- Full-screen repaints of a tick: one when it ends a minute whose number is a
multiple of five, none otherwise. -/
theorem tick_fullRepaints (t : State) (hT : Ticks t) :
    fullRepaints (updateAnimation t).log
      = fullRepaints t.log
        + (if 60 ≤ t.currentSecond + 1 ∧ Int.tmod (t.currentMinute + 1) 5 = 0 then 1 else 0) := by
  by_cases hs : t.currentSecond + 1 < 60
  · rw [tick_second t hT hs]
    have hs' : ¬ 60 ≤ t.currentSecond + 1 := by omega
    simp [secondCompleted, updateOuterDot, hs']
  · have hs' : 60 ≤ t.currentSecond + 1 := by omega
    rw [tick_minute t hT hs']
    have hl := minuteCompleted_log (secondCompleted t)
    have f1 : (secondCompleted t).timerDuration = t.timerDuration := rfl
    have f3 : (secondCompleted t).currentMinute = t.currentMinute := rfl
    have f8 : (secondCompleted t).log = t.log := rfl
    rw [f1, f3, f8] at hl
    show fullRepaints (minuteCompleted (secondCompleted t)).log = _
    rw [hl]
    by_cases h2 : Int.tmod (t.currentMinute + 1) 5 = 0 <;>
    by_cases h3 : t.timerDuration ≤ t.currentMinute + 1 <;>
    simp [fullRepaints, isFullRepaint, chromeLog, completionLog, List.filter_append, h2, h3, hs']

/-- A tick that does not end the countdown keeps the run going. -/
theorem runInv_step (D k : Int) (t : State) (h : RunInv D k t)
    (hd : 1000 ≤ usub (millis t) t.lastSecondUpdate) (hk : k + 1 < D * 60) :
    RunInv D (k + 1) (updateAnimation t)
    ∧ (updateAnimation t).lastActivityTime = t.lastActivityTime
    ∧ toneCount (updateAnimation t).log = toneCount t.log := by
  have hT : Ticks t := ⟨h.running, h.notPaused, hd⟩
  obtain ⟨c1, c2, c3, c4, c5, -⟩ := tick_core t hT
  have hlog := tick_tones t hT
  obtain ⟨hr, hp, hdur, hs0, hs1, hm0, hm1, hc⟩ := h
  simp only [ticksCounted] at hc
  by_cases hs : t.currentSecond + 1 < 60
  · obtain ⟨d1, d2, d3, d4, d5, d6⟩ := c4 hs
    exact ⟨⟨d1, c2, by omega, by omega, by omega, by omega, by omega,
      by simp only [ticksCounted]; omega⟩, d4, by rw [d6]⟩
  · obtain ⟨d1, d2, d3, d4, d5⟩ := c5 (by omega) (by omega)
    refine ⟨⟨d1, c2, by omega, by omega, by omega, by omega, by omega,
      by simp only [ticksCounted]; omega⟩, d4, ?_⟩
    rw [hlog, if_neg (by omega)]
    rfl

/-- The tick that ends the countdown. -/
theorem runInv_last (D k : Int) (t : State) (h : RunInv D k t)
    (hd : 1000 ≤ usub (millis t) t.lastSecondUpdate) (hk : k + 1 = D * 60) :
    (updateAnimation t).animationRunning = false
    ∧ (updateAnimation t).timerPaused = false
    ∧ (updateAnimation t).currentSecond = 0
    ∧ (updateAnimation t).currentMinute = 0
    ∧ (updateAnimation t).lastActivityTime = millis t
    ∧ toneCount (updateAnimation t).log = toneCount t.log + 4 := by
  have hT : Ticks t := ⟨h.running, h.notPaused, hd⟩
  obtain ⟨-, c2, -, -, -, c6⟩ := tick_core t hT
  have hlog := tick_tones t hT
  obtain ⟨hr, hp, hdur, hs0, hs1, hm0, hm1, hc⟩ := h
  simp only [ticksCounted] at hc
  obtain ⟨d1, d2, d3, d4, d5⟩ := c6 (by omega) (by omega)
  refine ⟨d1, c2, d2, d3, d4, ?_⟩
  rw [hlog, if_pos ⟨by omega, by omega⟩]

theorem runInv_start (s0 : State) (h : 1 ≤ s0.timerDuration) :
    RunInv s0.timerDuration 0 (startAnimation s0) :=
  ⟨rfl, rfl, rfl, le_refl _, by simp [startAnimation], le_refl _,
    by simp only [startAnimation]; omega, by simp [ticksCounted, startAnimation]⟩

theorem runCalls_cons (s : State) (d : Nat) (ds : List Nat) :
    runCalls s (d :: ds) = runCalls (updateAnimation (advance s d)) ds := rfl

theorem runCalls_append (s : State) (ds es : List Nat) :
    runCalls s (ds ++ es) = runCalls (runCalls s ds) es := by
  simp [runCalls]

theorem everyCallTicks_append (s : State) (ds es : List Nat) :
    everyCallTicks s (ds ++ es)
      = (everyCallTicks s ds && everyCallTicks (runCalls s ds) es) := by
  induction ds generalizing s with
  | nil => simp [everyCallTicks, runCalls]
  | cons d ds ih => simp [everyCallTicks, runCalls_cons, ih, Bool.and_assoc]

theorem everyCallTicks_take (s : State) (ds : List Nat) (n : Nat)
    (h : everyCallTicks s ds = true) : everyCallTicks s (ds.take n) = true := by
  have := everyCallTicks_append s (ds.take n) (ds.drop n)
  rw [List.take_append_drop, h] at this
  simpa using (Bool.and_eq_true _ _ ▸ this.symm).1

/-- After fewer ticks than the countdown needs, the run is still going, no
tone has sounded and the activity time stamp is untouched. -/
theorem runInv_run (D : Int) (ds : List Nat) (k : Int) (s : State) (h : RunInv D k s)
    (hds : everyCallTicks s ds = true) (hk : k + ds.length < D * 60) :
    RunInv D (k + ds.length) (runCalls s ds)
    ∧ (runCalls s ds).lastActivityTime = s.lastActivityTime
    ∧ toneCount (runCalls s ds).log = toneCount s.log := by
  induction ds generalizing k s with
  | nil => simpa [runCalls] using h
  | cons d ds ih =>
    rw [runCalls_cons]
    have hlen : ((d :: ds).length : Int) = (ds.length : Int) + 1 := by simp
    rw [hlen] at hk ⊢
    simp only [everyCallTicks, Bool.and_eq_true, decide_eq_true_eq] at hds
    have hA : RunInv D k (advance s d) := ⟨h.1, h.2, h.3, h.4, h.5, h.6, h.7, h.8⟩
    obtain ⟨g1, g2, g3⟩ := runInv_step D k (advance s d) hA hds.1 (by omega)
    obtain ⟨i1, i2, i3⟩ := ih (k + 1) _ g1 hds.2 (by omega)
    refine ⟨?_, by rw [i2, g2]; rfl, by rw [i3, g3]; rfl⟩
    rwa [show k + ((ds.length : Int) + 1) = k + 1 + ds.length by ring]

/-! ## Claims -/

/-- C1: for every `timerDuration ≥ 1`, starting from `startAnimation()` and
making exactly `timerDuration * 60` calls of `updateAnimation` that each find at
least 1000 ms elapsed since `lastSecondUpdate`, the timer is Completed
(`animationRunning == false`, `timerPaused == false`) with `currentSecond == 0`
and `currentMinute == 0`; after any smaller number of those calls it is still
Running, so completion happens exactly on tick `timerDuration * 60`. -/
theorem C1_completes_exactly_on_last_tick (s0 : State) (ds : List Nat)
    (hD : 1 ≤ s0.timerDuration)
    (hticks : everyCallTicks (startAnimation s0) ds = true)
    (hlen : (ds.length : Int) = s0.timerDuration * 60) :
    (runCalls (startAnimation s0) ds).animationRunning = false
    ∧ (runCalls (startAnimation s0) ds).timerPaused = false
    ∧ (runCalls (startAnimation s0) ds).currentSecond = 0
    ∧ (runCalls (startAnimation s0) ds).currentMinute = 0
    ∧ ∀ n, n < ds.length →
        (runCalls (startAnimation s0) (ds.take n)).animationRunning = true
        ∧ (runCalls (startAnimation s0) (ds.take n)).timerPaused = false := by
  have h0 := runInv_start s0 hD
  rcases List.eq_nil_or_concat' ds with rfl | ⟨init, d, rfl⟩
  · simp at hlen
    omega
  · have hl : ((init ++ [d]).length : Int) = (init.length : Int) + 1 := by simp
    rw [hl] at hlen
    rw [everyCallTicks_append, Bool.and_eq_true] at hticks
    obtain ⟨ht1, ht2⟩ := hticks
    simp only [everyCallTicks, Bool.and_true, decide_eq_true_eq] at ht2
    obtain ⟨r1, -, -⟩ := runInv_run s0.timerDuration init 0 _ h0 ht1 (by omega)
    have hA : RunInv s0.timerDuration (0 + init.length)
        (advance (runCalls (startAnimation s0) init) d) :=
      ⟨r1.1, r1.2, r1.3, r1.4, r1.5, r1.6, r1.7, r1.8⟩
    obtain ⟨e1, e2, e3, e4, -, -⟩ := runInv_last _ _ _ hA ht2 (by omega)
    rw [runCalls_append]
    refine ⟨e1, e2, e3, e4, fun n hn => ?_⟩
    have hn' : n ≤ init.length := by
      simp only [List.length_append, List.length_singleton] at hn
      omega
    rw [List.take_append_of_le_length hn']
    have hlt : (0 : Int) + (init.take n).length < s0.timerDuration * 60 := by
      rw [List.length_take]
      omega
    obtain ⟨q1, -, -⟩ := runInv_run s0.timerDuration (init.take n) 0 _ h0
      (everyCallTicks_take _ _ n ht1) hlt
    exact ⟨q1.1, q1.2⟩

set_option maxRecDepth 1000000 in
/-- Witness of C1: the default 25-minute countdown driven by 1500 calls made
one second apart. -/
theorem C1_witness :
    (runCalls (startAnimation paperS3) (List.replicate 1500 1000)).animationRunning = false
    ∧ (runCalls (startAnimation paperS3) (List.replicate 1500 1000)).timerPaused = false
    ∧ (runCalls (startAnimation paperS3) (List.replicate 1500 1000)).currentSecond = 0
    ∧ (runCalls (startAnimation paperS3) (List.replicate 1500 1000)).currentMinute = 0
    ∧ ∀ n, n < (List.replicate 1500 1000).length →
        (runCalls (startAnimation paperS3)
          ((List.replicate 1500 1000).take n)).animationRunning = true
        ∧ (runCalls (startAnimation paperS3)
          ((List.replicate 1500 1000).take n)).timerPaused = false :=
  C1_completes_exactly_on_last_tick paperS3 (List.replicate 1500 1000) (by decide) (by rfl)
    (by decide)

theorem updateAnimation_running (s : State)
    (h : (updateAnimation s).animationRunning = true) : s.animationRunning = true := by
  by_contra hn
  rw [updateAnimation_idle s (Or.inl (by simpa using hn))] at h
  exact hn h

theorem tickBound_advance (c0 : Nat) (s : State) (d : Nat) (h : TickBound c0 s) :
    TickBound c0 (advance s d) := by
  intro hr
  obtain ⟨h1, h2, h3, h4, L, h5, h6, h7, h8⟩ := h hr
  exact ⟨h1, h2, h3, h4, L, h5, Nat.le_trans h6 (Nat.le_add_right _ _), h7, h8⟩

theorem tickBound_update (c0 : Nat) (s : State) (h : TickBound c0 s) :
    TickBound c0 (updateAnimation s) := by
  intro hr'
  have hr := updateAnimation_running s hr'
  obtain ⟨h1, h2, h3, h4, L, h5, h6, h7, h8⟩ := h hr
  by_cases he : usub (millis s) s.lastSecondUpdate < 1000
  · rw [updateAnimation_early s he]
    exact ⟨h1, h2, h3, h4, L, h5, h6, h7, h8⟩
  · have hT : Ticks s := ⟨hr, h1, by omega⟩
    have hL : L + 1000 ≤ s.clock := by
      have := hT.2.2
      rw [h7] at this
      simp only [usub, millis, ULONG_RANGE] at this
      omega
    obtain ⟨c1, c2, c3, c4, c5, c6⟩ := tick_core s hT
    simp only [ticksCounted] at h8 ⊢
    by_cases hs : s.currentSecond + 1 < 60
    · obtain ⟨d1, d2, d3, d4, d5, d6⟩ := c4 hs
      refine ⟨c2, by omega, by omega, by omega, s.clock, by omega, by omega, ?_, ?_⟩
      · rw [c3, millis]
      · rw [d2, d3]
        omega
    · by_cases hm : s.currentMinute + 1 < s.timerDuration
      · obtain ⟨d1, d2, d3, d4, d5⟩ := c5 (by omega) hm
        refine ⟨c2, by omega, by omega, by omega, s.clock, by omega, by omega, ?_, ?_⟩
        · rw [c3, millis]
        · rw [d2, d3]
          omega
      · obtain ⟨d1, -⟩ := c6 (by omega) (by omega)
        rw [d1] at hr'
        exact absurd hr' (by decide)

theorem tickBound_run (c0 : Nat) (ds : List Nat) (s : State) (h : TickBound c0 s) :
    TickBound c0 (runCalls s ds) := by
  induction ds generalizing s with
  | nil => exact h
  | cons d ds ih =>
    rw [runCalls_cons]
    exact ih _ (tickBound_update c0 _ (tickBound_advance c0 s d h))

theorem tickBound_start (s0 : State) : TickBound s0.clock (startAnimation s0) := by
  intro _
  refine ⟨rfl, le_refl _, by simp [startAnimation], le_refl _, s0.clock, le_refl _, le_refl _,
    rfl, by simp [ticksCounted, startAnimation]⟩

/-- One call of `updateAnimation` counts at most one tick. -/
theorem ticksCounted_update_le (c0 : Nat) (s : State) (h : TickBound c0 s)
    (hr : s.animationRunning = true) :
    ticksCounted (updateAnimation s) ≤ ticksCounted s + 1 := by
  obtain ⟨h1, h2, h3, h4, -⟩ := h hr
  by_cases he : usub (millis s) s.lastSecondUpdate < 1000
  · rw [updateAnimation_early s he]
    omega
  · have hT : Ticks s := ⟨hr, h1, by omega⟩
    obtain ⟨c1, c2, c3, c4, c5, c6⟩ := tick_core s hT
    simp only [ticksCounted]
    by_cases hs : s.currentSecond + 1 < 60
    · obtain ⟨d1, d2, d3, -⟩ := c4 hs
      rw [d2, d3]
      omega
    · by_cases hm : s.currentMinute + 1 < s.timerDuration
      · obtain ⟨d1, d2, d3, -⟩ := c5 (by omega) hm
        rw [d2, d3]
        omega
      · obtain ⟨d1, d2, d3, -⟩ := c6 (by omega) (by omega)
        rw [d2, d3]
        omega

/-- C2 (as stated, refuted): on a PaperS3 whose countdown was just started, one
`updateAnimation` call made 5000 ms later leaves the timer Running with one
tick counted although five whole seconds have elapsed, so the count is more
than one tick behind the wall clock. -/
theorem C2_counterexample_late_call :
    (runCalls (startAnimation paperS3) [5000]).animationRunning = true
    ∧ (runCalls (startAnimation paperS3) [5000]).timerPaused = false
    ∧ wholeSecondsElapsed (startAnimation paperS3) (runCalls (startAnimation paperS3) [5000]) = 5
    ∧ ticksCounted (runCalls (startAnimation paperS3) [5000]) = 1
    ∧ ¬ (wholeSecondsElapsed (startAnimation paperS3) (runCalls (startAnimation paperS3) [5000])
          - ticksCounted (runCalls (startAnimation paperS3) [5000]) ≤ 1) := by
  decide

/-- What one call does to the tick count of a running, unpaused timer whose
second counter is in range: nothing before 1000 ms have elapsed, exactly one
tick after, however late. -/
theorem tick_exactly_one (t : State) (hr : t.animationRunning = true)
    (hp : t.timerPaused = false) (h0 : 0 ≤ t.currentSecond) (h59 : t.currentSecond ≤ 59) :
    (usub (millis t) t.lastSecondUpdate < 1000 → updateAnimation t = t)
    ∧ (1000 ≤ usub (millis t) t.lastSecondUpdate →
        (updateAnimation t).lastSecondUpdate = millis t
        ∧ (((updateAnimation t).animationRunning = true
              ∧ (updateAnimation t).timerPaused = false
              ∧ (updateAnimation t).clock = t.clock
              ∧ 0 ≤ (updateAnimation t).currentSecond
              ∧ (updateAnimation t).currentSecond ≤ 59
              ∧ (updateAnimation t).currentMinute ≥ t.currentMinute
              ∧ ticksCounted (updateAnimation t) = ticksCounted t + 1)
            ∨ ((updateAnimation t).animationRunning = false
              ∧ (updateAnimation t).currentSecond = 0
              ∧ (updateAnimation t).currentMinute = 0
              ∧ t.currentSecond = 59
              ∧ t.timerDuration ≤ t.currentMinute + 1))) := by
  refine ⟨fun he => updateAnimation_early t he, fun he => ?_⟩
  have hT : Ticks t := ⟨hr, hp, he⟩
  obtain ⟨-, c2, c3, c4, c5, c6⟩ := tick_core t hT
  refine ⟨c3, ?_⟩
  simp only [ticksCounted]
  by_cases hs : t.currentSecond + 1 < 60
  · obtain ⟨d1, d2, d3, -, d5, -⟩ := c4 hs
    left
    exact ⟨d1, c2, d5, by omega, by omega, by omega, by rw [d2, d3]; omega⟩
  · by_cases hm : t.currentMinute + 1 < t.timerDuration
    · obtain ⟨d1, d2, d3, -, d5⟩ := c5 (by omega) hm
      left
      exact ⟨d1, c2, d5, by omega, by omega, by omega, by rw [d2, d3]; omega⟩
    · obtain ⟨d1, d2, d3, -⟩ := c6 (by omega) (by omega)
      right
      exact ⟨d1, d2, d3, by omega, by omega⟩

theorem gapBound_step (c0 g : Nat) (s : State) (d : Nat) (h : GapBound c0 g s)
    (hd : d ≤ g) (hg : g + 1000 ≤ ULONG_RANGE) :
    GapBound c0 g (updateAnimation (advance s d)) := by
  intro hr'
  have hr : s.animationRunning = true := updateAnimation_running (advance s d) hr'
  obtain ⟨h1, h2, h3, h4, L, h5, h6, h7, h8, h9⟩ := h hr
  have he : usub (millis (advance s d)) (advance s d).lastSecondUpdate = s.clock + d - L := by
    show usub (millis (advance s d)) s.lastSecondUpdate = s.clock + d - L
    rw [h8]
    simp only [usub, millis, advance, ULONG_RANGE] at hg ⊢
    omega
  obtain ⟨e1, e2⟩ := tick_exactly_one (advance s d) hr h1 h2 h3
  by_cases hlt : s.clock + d - L < 1000
  · rw [e1 (by rw [he]; exact hlt)]
    refine ⟨h1, h2, h3, h4, L, h5, ?_, ?_, h8, h9⟩
    · show L ≤ s.clock + d
      omega
    · show s.clock + d ≤ L + 999
      omega
  · obtain ⟨f1, f2⟩ := e2 (by rw [he]; omega)
    rcases f2 with ⟨g1, g2, g3, g4, g5, g6, g7⟩ | ⟨g1, -⟩
    · have hc : (advance s d).clock = s.clock + d := rfl
      have hm : (advance s d).currentMinute = s.currentMinute := rfl
      have ht : ticksCounted (advance s d) = ticksCounted s := rfl
      rw [hc] at g3
      rw [hm] at g6
      rw [ht] at g7
      refine ⟨g2, g4, g5, by omega, s.clock + d, by omega, by omega, by omega, ?_, ?_⟩
      · rw [f1, millis, hc]
      · rw [g7]
        have hx : (ticksCounted s + 1) * (999 + (g : Int))
            = ticksCounted s * (999 + (g : Int)) + (999 + (g : Int)) := by ring
        rw [hx]
        push_cast
        omega
    · rw [g1] at hr'
      exact absurd hr' (by decide)

theorem gapBound_run (c0 g : Nat) (ds : List Nat) (s : State) (h : GapBound c0 g s)
    (hds : ∀ d ∈ ds, d ≤ g) (hg : g + 1000 ≤ ULONG_RANGE) :
    GapBound c0 g (runCalls s ds) := by
  induction ds generalizing s with
  | nil => exact h
  | cons d ds ih =>
    rw [runCalls_cons]
    exact ih _ (gapBound_step c0 g s d h (hds d (by simp)) hg)
      (fun x hx => hds x (by simp [hx]))

theorem gapBound_start (s0 : State) (g : Nat) : GapBound s0.clock g (startAnimation s0) := by
  intro _
  refine ⟨rfl, le_refl _, by simp [startAnimation], le_refl _, s0.clock, le_refl _, le_refl _,
    Nat.le_add_right _ _, rfl, by simp [ticksCounted, startAnimation]⟩

/-- C2 (amended): for every countdown started by `startAnimation()` and every
sequence of `updateAnimation` calls made at non-decreasing times, while the
timer is Running: a call that finds less than 1000 ms elapsed since
`lastSecondUpdate` changes nothing, and a call that finds 1000 ms or more
counts exactly one tick, however late it is, and re-arms `lastSecondUpdate` to
the time of the call (or, on the last tick, completes the countdown).  So the
ticks counted never exceed the whole seconds of wall-clock time elapsed since
the start (`1000 * ticks ≤ elapsed ms`), and they fall behind them by at most
the polling delay of each tick: when consecutive calls are at most `g` ms
apart, `elapsed ms ≤ ticks * (999 + g) + 999`. -/
theorem C2_ticks_never_ahead_one_per_call (s0 : State) (ds : List Nat)
    (hrun : (runCalls (startAnimation s0) ds).animationRunning = true) :
    1000 * ticksCounted (runCalls (startAnimation s0) ds)
        ≤ ((runCalls (startAnimation s0) ds).clock : Int) - s0.clock
    ∧ ticksCounted (runCalls (startAnimation s0) ds)
        ≤ wholeSecondsElapsed (startAnimation s0) (runCalls (startAnimation s0) ds)
    ∧ (∀ d : Nat,
        ticksCounted (runCalls (startAnimation s0) (ds ++ [d]))
          ≤ ticksCounted (runCalls (startAnimation s0) ds) + 1)
    ∧ (∀ d : Nat,
        usub (millis (advance (runCalls (startAnimation s0) ds) d))
            (runCalls (startAnimation s0) ds).lastSecondUpdate < 1000 →
        runCalls (startAnimation s0) (ds ++ [d]) = advance (runCalls (startAnimation s0) ds) d)
    ∧ (∀ d : Nat,
        1000 ≤ usub (millis (advance (runCalls (startAnimation s0) ds) d))
            (runCalls (startAnimation s0) ds).lastSecondUpdate →
        (runCalls (startAnimation s0) (ds ++ [d])).lastSecondUpdate
            = millis (advance (runCalls (startAnimation s0) ds) d)
        ∧ (((runCalls (startAnimation s0) (ds ++ [d])).animationRunning = true
              ∧ ticksCounted (runCalls (startAnimation s0) (ds ++ [d]))
                  = ticksCounted (runCalls (startAnimation s0) ds) + 1)
            ∨ ((runCalls (startAnimation s0) (ds ++ [d])).animationRunning = false
              ∧ (runCalls (startAnimation s0) (ds ++ [d])).currentSecond = 0
              ∧ (runCalls (startAnimation s0) (ds ++ [d])).currentMinute = 0
              ∧ (runCalls (startAnimation s0) ds).currentSecond = 59
              ∧ (runCalls (startAnimation s0) ds).timerDuration
                  ≤ (runCalls (startAnimation s0) ds).currentMinute + 1)))
    ∧ (∀ g : Nat, (∀ d ∈ ds, d ≤ g) → g + 1000 ≤ ULONG_RANGE →
        ((runCalls (startAnimation s0) ds).clock : Int) - s0.clock
          ≤ ticksCounted (runCalls (startAnimation s0) ds) * (999 + (g : Int)) + 999) := by
  have hB := tickBound_run s0.clock ds _ (tickBound_start s0)
  obtain ⟨h1, h2, h3, h4, L, h5, h6, h7, h8⟩ := hB hrun
  have hA : 1000 * ticksCounted (runCalls (startAnimation s0) ds)
        ≤ ((runCalls (startAnimation s0) ds).clock : Int) - s0.clock := by omega
  refine ⟨hA, ?_, fun d => ?_, fun d he => ?_, fun d he => ?_, fun g hds hg => ?_⟩
  · simp only [wholeSecondsElapsed]
    have hc : (startAnimation s0).clock = s0.clock := rfl
    rw [hc]
    omega
  · rw [runCalls_append]
    exact ticksCounted_update_le s0.clock _ (tickBound_advance _ _ d hB) hrun
  · rw [runCalls_append]
    exact (tick_exactly_one (advance (runCalls (startAnimation s0) ds) d) hrun h1 h2 h3).1 he
  · rw [runCalls_append]
    obtain ⟨f1, f2⟩ :=
      (tick_exactly_one (advance (runCalls (startAnimation s0) ds) d) hrun h1 h2 h3).2 he
    refine ⟨f1, ?_⟩
    rcases f2 with ⟨g1, -, -, -, -, -, g7⟩ | ⟨g1, g2, g3, g4, g5⟩
    · exact Or.inl ⟨g1, g7⟩
    · exact Or.inr ⟨g1, g2, g3, g4, g5⟩
  · obtain ⟨-, -, -, -, M, m1, m2, m3, -, m5⟩ :=
      gapBound_run s0.clock g ds _ (gapBound_start s0 g) hds hg hrun
    omega

/-- Witness of C2 (amended): calls made 5000, 900 and 1000 ms apart count two
ticks in 6.9 s; a further call 7000 ms later counts exactly one more. -/
theorem C2_witness :
    (runCalls (startAnimation paperS3) [5000, 900, 1000]).animationRunning = true
    ∧ ticksCounted (runCalls (startAnimation paperS3) [5000, 900, 1000]) = 2
    ∧ 1000 * ticksCounted (runCalls (startAnimation paperS3) [5000, 900, 1000])
        ≤ ((runCalls (startAnimation paperS3) [5000, 900, 1000]).clock : Int) - paperS3.clock
    ∧ ticksCounted (runCalls (startAnimation paperS3) ([5000, 900, 1000] ++ [7000]))
        = ticksCounted (runCalls (startAnimation paperS3) [5000, 900, 1000]) + 1
    ∧ ((runCalls (startAnimation paperS3) [5000, 900, 1000]).clock : Int) - paperS3.clock
        ≤ ticksCounted (runCalls (startAnimation paperS3) [5000, 900, 1000])
            * (999 + ((5000 : Nat) : Int)) + 999 :=
  have h := C2_ticks_never_ahead_one_per_call paperS3 [5000, 900, 1000] (by decide)
  ⟨by decide, by decide, h.1,
    (((h.2.2.2.2.1 7000 (by decide)).2).resolve_right (by decide)).2,
    h.2.2.2.2.2 5000 (by decide) (by decide)⟩

/-! ## Invariant of the reachable states -/

/-- The invariant only reads the timer variables and the two rings. -/
theorem Inv.congr {s r : State} (h : Inv s)
    (e1 : r.currentSecond = s.currentSecond) (e2 : r.currentMinute = s.currentMinute)
    (e3 : r.animationRunning = s.animationRunning)
    (e4 : r.timerPaused = true → r.animationRunning = true)
    (e5 : r.timerDuration = s.timerDuration) (e6 : r.outer = s.outer) (e7 : r.inner = s.inner) :
    Inv r := by
  obtain ⟨hd, h1, h2, h3, h4, hi, -, ho, hn⟩ := h
  refine ⟨by rw [e5]; exact hd, by omega, by omega, by omega, by omega, ?_, e4, ?_, ?_⟩
  · rw [e1, e2, e3]
    exact hi
  · rw [e1, e6]
    exact ho
  · rw [e2, e5, e7]
    exact hn

/-- A timer with both counters at zero, not paused, and both rings black. -/
theorem Inv.fresh {r : State}
    (hd : r.timerDuration = 5 ∨ r.timerDuration = 25 ∨ r.timerDuration = 30)
    (e1 : r.currentSecond = 0) (e2 : r.currentMinute = 0) (e4 : r.timerPaused = false)
    (e6 : ∀ j, 0 ≤ j → j < 60 → r.outer j = Colour.black)
    (e7 : ∀ j, 0 ≤ j → j < r.timerDuration → r.inner j = Colour.black) : Inv r := by
  refine ⟨hd, by omega, by omega, by omega, by omega, fun _ => ⟨e1, e2⟩, ?_, ?_, ?_⟩
  · intro h
    rw [e4] at h
    exact absurd h (by decide)
  · intro j h0 h60
    rw [e6 j h0 h60, e1]
    constructor
    · intro h
      exact absurd h (by decide)
    · intro h
      omega
  · intro j h0 hD
    rw [e7 j h0 hD, e2]
    constructor
    · intro h
      exact absurd h (by decide)
    · intro h
      omega

theorem inv_advance (s : State) (d : Nat) (h : Inv s) : Inv (advance s d) :=
  h.congr rfl rfl rfl h.paused rfl rfl rfl

theorem inv_updateAnimation (s : State) (h : Inv s) : Inv (updateAnimation s) := by
  by_cases hr : s.animationRunning = true ∧ s.timerPaused = false
  swap
  · rw [updateAnimation_idle s (by
      by_cases h1 : s.animationRunning = true
      · right
        by_contra h2
        exact hr ⟨h1, by simpa using h2⟩
      · left
        simpa using h1)]
    exact h
  by_cases he : usub (millis s) s.lastSecondUpdate < 1000
  · rw [updateAnimation_early s he]
    exact h
  have hT : Ticks s := ⟨hr.1, hr.2, by omega⟩
  obtain ⟨c1, c2, c3, c4, c5, c6⟩ := tick_core s hT
  obtain ⟨hd, h1, h2, h3, h4, hi, hp, ho, hn⟩ := h
  by_cases hs : s.currentSecond + 1 < 60
  · obtain ⟨d1, d2, d3, -⟩ := c4 hs
    have eo : (updateAnimation s).outer
        = Function.update s.outer (59 - s.currentSecond) Colour.white := by
      rw [tick_second s hT hs]
      rfl
    have ei : (updateAnimation s).inner = s.inner := by
      rw [tick_second s hT hs]
      rfl
    refine ⟨by rw [c1]; exact hd, by omega, by omega, by omega, by omega, ?_, ?_, ?_, ?_⟩
    · intro h
      rw [d1] at h
      exact absurd h (by decide)
    · intro h
      rw [c2] at h
      exact absurd h (by decide)
    · intro j h0 h60
      rw [eo, d2]
      by_cases hj : j = 59 - s.currentSecond
      · subst hj
        simp
        omega
      · rw [Function.update_noteq hj, ho j h0 h60]
        omega
    · intro j h0 hD
      rw [ei, d3, c1]
      rw [c1] at hD
      exact hn j h0 hD
  · have hs' : 60 ≤ s.currentSecond + 1 := by omega
    have eo : ∀ j, 0 ≤ j → j < 60 → (updateAnimation s).outer j = Colour.black := by
      intro j h0 h60
      rw [tick_minute s hT hs']
      exact minuteCompleted_outer (secondCompleted s) j h0 h60
    by_cases hm : s.currentMinute + 1 < s.timerDuration
    · obtain ⟨d1, d2, d3, -⟩ := c5 hs' hm
      refine ⟨by rw [c1]; exact hd, by omega, by omega, by omega, by omega, ?_, ?_, ?_, ?_⟩
      · intro h
        rw [d1] at h
        exact absurd h (by decide)
      · intro h
        rw [c2] at h
        exact absurd h (by decide)
      · intro j h0 h60
        rw [eo j h0 h60, d2]
        constructor
        · intro h
          exact absurd h (by decide)
        · intro h
          omega
      · intro j h0 hD
        rw [c1] at hD
        rw [d3, c1, tick_minute s hT hs']
        exact minuteCompleted_inner_next (secondCompleted s) j h0 hD hm h3 (hn j h0 hD)
    · obtain ⟨d1, d2, d3, -⟩ := c6 hs' (by omega)
      refine Inv.fresh (by rw [c1]; exact hd) d2 d3 c2 eo ?_
      intro j h0 hD
      rw [c1] at hD
      rw [tick_minute s hT hs']
      exact minuteCompleted_inner_done (secondCompleted s) j h0 hD
        (show s.timerDuration ≤ s.currentMinute + 1 by omega)

theorem inv_emit (s : State) (e : Effect) (h : Inv s) : Inv (emit s e) :=
  h.congr rfl rfl rfl h.paused rfl rfl rfl

theorem inv_delay (s : State) (ms : Nat) (h : Inv s) : Inv (delay s ms) :=
  h.congr rfl rfl rfl h.paused rfl rfl rfl

theorem inv_chrome (s : State) (h : Inv s) :
    Inv (emit (redrawAllButtons (drawTitle s)) Effect.drawBatteryIcon) := by
  rw [chrome_eq]
  exact h.congr rfl rfl rfl h.paused rfl rfl rfl

/-- Clearing the panel and drawing the empty rings, with the counters at zero. -/
theorem inv_cleared (s : State)
    (hd : s.timerDuration = 5 ∨ s.timerDuration = 25 ∨ s.timerDuration = 30)
    (e1 : s.currentSecond = 0) (e2 : s.currentMinute = 0) (e4 : s.timerPaused = false) :
    Inv (drawCircularTimer (fillScreen s Colour.white) (fillScreen s Colour.white).timerDuration) := by
  rw [drawCircularTimer_eq]
  refine Inv.fresh hd e1 e2 e4 ?_ ?_
  · intro j h0 h60
    simp [fillScreen, h0, h60]
  · intro j h0 hD
    have hD' : j < s.timerDuration := hD
    simp [fillScreen, h0, hD']

theorem inv_pressPlay (s : State) (h : Inv s) : Inv (pressPlay s) := by
  unfold pressPlay
  simp only []
  have e : (emit s (Effect.tone 800 100)).animationRunning = s.animationRunning := rfl
  have e' : (emit s (Effect.tone 800 100)).timerPaused = s.timerPaused := rfl
  rw [e, e']
  by_cases hr : s.animationRunning = true
  · by_cases hp : s.timerPaused = true
    · simp only [hr, hp, Bool.not_true, Bool.false_eq_true, if_false, if_true]
      exact h.congr rfl rfl rfl (fun _ => hr) rfl rfl rfl
    · simp only [hr, hp, Bool.not_true, Bool.false_eq_true, if_false]
      exact inv_emit _ _ h
  · have hr' : s.animationRunning = false := by simpa using hr
    simp only [hr', Bool.not_false, if_true]
    apply inv_chrome
    exact inv_cleared (startAnimation (emit s (Effect.tone 800 100))) h.dur rfl rfl rfl

theorem inv_pressPause (s : State) (h : Inv s) : Inv (pressPause s) := by
  unfold pressPause
  simp only []
  split
  · rename_i hc
    have hr : s.animationRunning = true := by
      simp only [emit, Bool.and_eq_true] at hc
      exact hc.1
    exact h.congr rfl rfl rfl (fun _ => hr) rfl rfl rfl
  · exact inv_emit _ _ h

theorem stopAnimation_eq (s : State) :
    stopAnimation s =
      { s with
        animationRunning := false
        timerPaused := false
        currentSecond := 0
        currentMinute := 0
        outer := fun j => if 0 ≤ j ∧ j < 60 then Colour.black else s.outer j
        inner := fun j => if 0 ≤ j ∧ j < s.timerDuration then Colour.black else s.inner j } := by
  simp only [stopAnimation, resetAllDots_eq]

theorem inv_pressStop (s : State) (h : Inv s) : Inv (pressStop s) := by
  unfold pressStop
  simp only []
  apply inv_chrome
  apply inv_cleared
  · rw [stopAnimation_eq]
    exact h.dur
  · rw [stopAnimation_eq]
  · rw [stopAnimation_eq]
  · rw [stopAnimation_eq]

theorem inv_pressPreset (s : State) (minutes : Int)
    (hm : minutes = 5 ∨ minutes = 25 ∨ minutes = 30) : Inv (pressPreset s minutes) := by
  unfold pressPreset
  simp only []
  apply inv_emit
  apply inv_cleared
  · rw [stopAnimation_eq]
    exact hm
  · rw [stopAnimation_eq]
  · rw [stopAnimation_eq]
  · rw [stopAnimation_eq]

/-- Repaint of the rings from the counters (lines 436-464): the empty rings
are drawn, then the completed dots if the timer is running. -/
theorem inv_repaint (a : State)
    (hd : a.timerDuration = 5 ∨ a.timerDuration = 25 ∨ a.timerDuration = 30)
    (h1 : 0 ≤ a.currentSecond) (h2 : a.currentSecond ≤ 59) (h3 : 0 ≤ a.currentMinute)
    (h4 : a.currentMinute < a.timerDuration)
    (hi : a.animationRunning = false → a.currentSecond = 0 ∧ a.currentMinute = 0)
    (hp : a.timerPaused = true → a.animationRunning = true) :
    Inv (if (emit (redrawAllButtons (drawTitle (drawCircularTimer a a.timerDuration)))
          Effect.drawBatteryIcon).animationRunning = true
        then redrawCompletedDots (emit (redrawAllButtons (drawTitle
          (drawCircularTimer a a.timerDuration))) Effect.drawBatteryIcon)
        else emit (redrawAllButtons (drawTitle (drawCircularTimer a a.timerDuration)))
          Effect.drawBatteryIcon) := by
  rw [chrome_eq, drawCircularTimer_eq]
  simp only []
  by_cases hr : a.animationRunning = true
  · rw [if_pos hr, redrawCompletedDots_eq]
    simp only []
    refine ⟨hd, h1, h2, h3, h4,
      fun h => absurd (show a.animationRunning = false from h) (by simp [hr]), hp, ?_, ?_⟩
    · intro j h0 h60
      have : j ≤ 59 := by omega
      simp [h0, h60, h1, this]
    · intro j h0 hD
      have hD' : j < a.timerDuration := hD
      have : j ≤ a.timerDuration - 1 := by omega
      simp [h0, hD', h3, this]
  · rw [if_neg hr]
    have hr' : a.animationRunning = false := by simpa using hr
    obtain ⟨z1, z2⟩ := hi hr'
    refine Inv.fresh hd z1 z2 ?_ ?_ ?_
    · by_contra hc
      exact hr (hp (by simpa using hc))
    · intro j h0 h60
      simp [h0, h60]
    · intro j h0 hD
      have hD' : j < a.timerDuration := hD
      simp [h0, hD']

/-- State of the refresh button after its black and white flashes (lines 423-434). -/
theorem pressRefresh_eq (s : State) :
    pressRefresh s =
      emit
        (if (emit (redrawAllButtons (drawTitle (drawCircularTimer
              { s with
                outer := fun _ => Colour.white
                inner := fun _ => Colour.white
                clock := s.clock + 100 + 100
                log := s.log ++ [Effect.tone 500 100, Effect.fillScreen Colour.black,
                  Effect.display, Effect.delay 100, Effect.fillScreen Colour.white,
                  Effect.display, Effect.delay 100] } s.timerDuration)))
            Effect.drawBatteryIcon).animationRunning = true
          then redrawCompletedDots (emit (redrawAllButtons (drawTitle (drawCircularTimer
              { s with
                outer := fun _ => Colour.white
                inner := fun _ => Colour.white
                clock := s.clock + 100 + 100
                log := s.log ++ [Effect.tone 500 100, Effect.fillScreen Colour.black,
                  Effect.display, Effect.delay 100, Effect.fillScreen Colour.white,
                  Effect.display, Effect.delay 100] } s.timerDuration)))
            Effect.drawBatteryIcon)
          else emit (redrawAllButtons (drawTitle (drawCircularTimer
              { s with
                outer := fun _ => Colour.white
                inner := fun _ => Colour.white
                clock := s.clock + 100 + 100
                log := s.log ++ [Effect.tone 500 100, Effect.fillScreen Colour.black,
                  Effect.display, Effect.delay 100, Effect.fillScreen Colour.white,
                  Effect.display, Effect.delay 100] } s.timerDuration)))
            Effect.drawBatteryIcon)
        Effect.display := by
  have e : delay (emit (fillScreen (delay (emit (fillScreen (emit s (Effect.tone 500 100))
      Colour.black) Effect.display) 100) Colour.white) Effect.display) 100
      = { s with
          outer := fun _ => Colour.white
          inner := fun _ => Colour.white
          clock := s.clock + 100 + 100
          log := s.log ++ [Effect.tone 500 100, Effect.fillScreen Colour.black,
            Effect.display, Effect.delay 100, Effect.fillScreen Colour.white,
            Effect.display, Effect.delay 100] } := by
    simp [delay, emit, fillScreen]
  unfold pressRefresh
  simp only []
  rw [e]

theorem inv_pressRefresh (s : State) (h : Inv s) : Inv (pressRefresh s) := by
  rw [pressRefresh_eq]
  apply inv_emit
  exact inv_repaint
    { s with
      outer := fun _ => Colour.white
      inner := fun _ => Colour.white
      clock := s.clock + 100 + 100
      log := s.log ++ [Effect.tone 500 100, Effect.fillScreen Colour.black,
        Effect.display, Effect.delay 100, Effect.fillScreen Colour.white,
        Effect.display, Effect.delay 100] }
    h.dur h.secLo h.secHi h.minLo h.minHi h.idle h.paused

theorem inv_redrawAfterPress (s : State) (i : Fin 7) (h : Inv s) :
    Inv (redrawAfterPress s i) := by
  unfold redrawAfterPress
  simp only []
  split
  · exact inv_chrome s h
  · split
    · split
      · exact inv_emit _ _ (inv_emit _ _ h)
      · exact inv_emit _ _ h
    · exact h

theorem inv_handleButtonPress (s : State) (i : Fin 7) (h : Inv s) :
    Inv (handleButtonPress s i) := by
  unfold handleButtonPress
  simp only []
  apply inv_redrawAfterPress
  have h0 : Inv (pressFeedback s i) := h.congr rfl rfl rfl h.paused rfl rfl rfl
  split
  · exact inv_pressPlay _ h0
  · exact inv_pressPause _ h0
  · exact inv_pressStop _ h0
  · exact inv_pressPreset _ 25 (by decide)
  · exact inv_pressPreset _ 5 (by decide)
  · exact inv_pressPreset _ 30 (by decide)
  · exact inv_pressRefresh _ h0
  · exact h0

theorem inv_checkButtonTouch (s : State) (t : Touch) (h : Inv s) :
    Inv (checkButtonTouch s t) := by
  unfold checkButtonTouch
  simp only []
  split
  · split
    · split
      · exact inv_handleButtonPress _ _ (h.congr rfl rfl rfl h.paused rfl rfl rfl)
      · exact h.congr rfl rfl rfl h.paused rfl rfl rfl
    · exact h
  · exact h

theorem inv_setup (screenWidth screenHeight : Int) (sdBegin imageOnCard : Bool)
    (bootClock : Nat) : Inv (setup screenWidth screenHeight sdBegin imageOnCard bootClock) := by
  unfold setup
  simp only []
  apply inv_emit
  have h1 : Inv (drawTitle (drawCircularTimer
      { fillScreen (powerOn screenWidth screenHeight imageOnCard bootClock) Colour.white with
        sdCardInitialized := sdBegin
        lastActivityTime := millis
          { fillScreen (powerOn screenWidth screenHeight imageOnCard bootClock) Colour.white with
            sdCardInitialized := sdBegin } } 25)) := by
    unfold drawTitle
    apply inv_emit
    apply inv_emit
    rw [drawCircularTimer_eq]
    refine Inv.fresh (Or.inr (Or.inl rfl)) rfl rfl rfl ?_ ?_
    · intro j h0 h60
      simp [h0, h60]
    · intro j h0 hD
      have hD' : j < 25 := hD
      simp [h0, hD']
  unfold redrawAllButtons
  simp only []
  repeat apply inv_emit
  exact h1.congr rfl rfl rfl h1.paused rfl rfl rfl

/-- Every reachable state satisfies the invariant. -/
theorem inv_of_reachable (s : State) (h : Reachable s) : Inv s := by
  induction h with
  | boot w ht sd img c => exact inv_setup w ht sd img c
  | press i _ ih => exact inv_handleButtonPress _ i ih
  | touch t _ ih => exact inv_checkButtonTouch _ t ih
  | update _ ih => exact inv_updateAnimation _ ih
  | wait ms _ ih => exact inv_advance _ ms ih

theorem length_filter_range_ge (N M : Nat) :
    ((List.range N).filter (fun i => decide (M ≤ i))).length = N - M := by
  induction N with
  | zero => simp
  | succ N ih =>
    rw [List.range_succ, List.filter_append, List.length_append, ih]
    by_cases h : M ≤ N
    · simp [h]
      omega
    · simp [h]
      omega

/-- A ring whose white dots are exactly the last `k` of its `n` dots has `k`
dots filled. -/
theorem filledCount_eq (ring : Int → Colour) (n k : Int) (hk0 : 0 ≤ k) (hkn : k ≤ n)
    (h : ∀ j, 0 ≤ j → j < n → (ring j = Colour.white ↔ n - k ≤ j)) :
    filledCount ring n = k := by
  unfold filledCount
  have hc : (List.range n.toNat).filter (fun (i : Nat) => decide (ring (Int.ofNat i) = Colour.white))
      = (List.range n.toNat).filter (fun (i : Nat) => decide ((n - k).toNat ≤ i)) := by
    apply List.filter_congr
    intro i hi
    rw [List.mem_range] at hi
    have := h (Int.ofNat i) (Int.ofNat_zero_le i) (by show (i : Int) < n; omega)
    by_cases hw : ring (Int.ofNat i) = Colour.white
    · have h2 := this.1 hw
      rw [show Int.ofNat i = (i : Int) from rfl] at h2
      simp only [hw, decide_True]
      symm
      rw [decide_eq_true_eq]
      omega
    · have h2 : ¬ (n - k ≤ Int.ofNat i) := fun hh => hw (this.2 hh)
      rw [show Int.ofNat i = (i : Int) from rfl] at h2
      simp only [hw, decide_False]
      symm
      rw [decide_eq_false_iff_not]
      omega
  rw [hc, length_filter_range_ge]
  omega

theorem reachable_runCalls (s : State) (ds : List Nat) (h : Reachable s) :
    Reachable (runCalls s ds) := by
  induction ds generalizing s with
  | nil => exact h
  | cons d ds ih =>
    rw [runCalls_cons]
    exact ih _ (Reachable.update (Reachable.wait d h))

/-- C3: from every state in which the animation runs, `pauseAnimation()`, then
any number of `updateAnimation()` calls at arbitrary later times, then
`resumeAnimation()` leave `currentSecond` and `currentMinute` as they were
before the pause, however much wall-clock time passed, and the timer is Running
again with `lastSecondUpdate` re-armed to the time of the resume. -/
theorem C3_pause_resume_keeps_counters (s : State) (ds : List Nat) (d : Nat)
    (hrun : s.animationRunning = true) :
    (resumeAnimation (advance (runCalls (pauseAnimation s) ds) d)).currentSecond
        = s.currentSecond
    ∧ (resumeAnimation (advance (runCalls (pauseAnimation s) ds) d)).currentMinute
        = s.currentMinute
    ∧ (resumeAnimation (advance (runCalls (pauseAnimation s) ds) d)).animationRunning = true
    ∧ (resumeAnimation (advance (runCalls (pauseAnimation s) ds) d)).timerPaused = false
    ∧ (resumeAnimation (advance (runCalls (pauseAnimation s) ds) d)).lastSecondUpdate
        = (s.clock + ds.sum + d) % ULONG_RANGE
    ∧ (resumeAnimation (advance (runCalls (pauseAnimation s) ds) d)).clock
        = s.clock + ds.sum + d := by
  have hp : ∀ (l : List Nat) (p : State), p.timerPaused = true →
      runCalls p l = { p with clock := p.clock + l.sum } := by
    intro l
    induction l with
    | nil => intro p _; rfl
    | cons a l ih =>
      intro p hpz
      rw [runCalls_cons, updateAnimation_idle _ (Or.inr (by exact hpz)), ih _ (by exact hpz)]
      simp [advance, Nat.add_assoc]
  rw [hp ds (pauseAnimation s) rfl]
  exact ⟨rfl, rfl, hrun, rfl, rfl, rfl⟩

/-- Witness of C3: a PaperS3 that has counted two seconds is paused, polled
three times over more than an hour, and resumed. -/
theorem C3_witness :
    (runCalls (startAnimation paperS3) [1000, 1000]).animationRunning = true
    ∧ (resumeAnimation (advance (runCalls (pauseAnimation
          (runCalls (startAnimation paperS3) [1000, 1000])) [100, 3600000, 5000]) 70)).currentSecond
        = 2
    ∧ (resumeAnimation (advance (runCalls (pauseAnimation
          (runCalls (startAnimation paperS3) [1000, 1000])) [100, 3600000, 5000]) 70)).lastSecondUpdate
        = 3607170 :=
  ⟨by decide,
    (C3_pause_resume_keeps_counters (runCalls (startAnimation paperS3) [1000, 1000])
      [100, 3600000, 5000] 70 (by decide)).1.trans (by decide),
    (C3_pause_resume_keeps_counters (runCalls (startAnimation paperS3) [1000, 1000])
      [100, 3600000, 5000] 70 (by decide)).2.2.2.2.1.trans (by decide)⟩

/-- C4: in every state reachable from `setup` by button presses, touch polls,
`updateAnimation` calls and waits, `0 ≤ currentSecond ≤ 59`, `0 ≤ currentMinute`,
and `currentMinute < timerDuration` whenever the timer is Running or Paused; a
tick that would make `currentMinute` equal `timerDuration` leaves the timer
Completed with both counters at 0. -/
theorem C4_counters_in_range (s : State) (h : Reachable s) :
    0 ≤ s.currentSecond ∧ s.currentSecond ≤ 59 ∧ 0 ≤ s.currentMinute
    ∧ (s.animationRunning = true ∨ s.timerPaused = true → s.currentMinute < s.timerDuration)
    ∧ (Ticks s → s.currentSecond = 59 → s.currentMinute + 1 = s.timerDuration →
        (updateAnimation s).animationRunning = false
        ∧ (updateAnimation s).timerPaused = false
        ∧ (updateAnimation s).currentSecond = 0
        ∧ (updateAnimation s).currentMinute = 0) := by
  have hI := inv_of_reachable s h
  refine ⟨hI.secLo, hI.secHi, hI.minLo, fun _ => hI.minHi, fun hT hs hm => ?_⟩
  obtain ⟨-, c2, -, -, -, c6⟩ := tick_core s hT
  obtain ⟨d1, d2, d3, -⟩ := c6 (by omega) (by omega)
  exact ⟨d1, c2, d2, d3⟩

/-- Witness of C4: the 5-minute preset, started with the play button, one call
short of completion. -/
theorem C4_witness :
    Reachable (advance (runCalls (handleButtonPress (handleButtonPress paperS3 4) 0)
      (List.replicate 299 1000)) 1000)
    ∧ (advance (runCalls (handleButtonPress (handleButtonPress paperS3 4) 0)
        (List.replicate 299 1000)) 1000).currentSecond = 59
    ∧ (advance (runCalls (handleButtonPress (handleButtonPress paperS3 4) 0)
        (List.replicate 299 1000)) 1000).currentMinute = 4
    ∧ (updateAnimation (advance (runCalls (handleButtonPress (handleButtonPress paperS3 4) 0)
        (List.replicate 299 1000)) 1000)).animationRunning = false
    ∧ (updateAnimation (advance (runCalls (handleButtonPress (handleButtonPress paperS3 4) 0)
        (List.replicate 299 1000)) 1000)).currentMinute = 0 :=
  have hr : Reachable (advance (runCalls (handleButtonPress (handleButtonPress paperS3 4) 0)
      (List.replicate 299 1000)) 1000) :=
    Reachable.wait 1000 (reachable_runCalls _ _
      (Reachable.press 0 (Reachable.press 4 (Reachable.boot 540 960 true true 0))))
  have hc := (C4_counters_in_range _ hr).2.2.2.2 ⟨by decide!, by decide!, by decide!⟩
    (by decide!) (by decide!)
  ⟨hr, by decide!, by decide!, hc.1, hc.2.2.2⟩

/-- C5: in every state reachable from `setup` by button presses, touch polls,
`updateAnimation` calls and waits, the number of white dots of the outer ring
equals `currentSecond` and the number of white dots among the `timerDuration`
dots of the inner ring equals `currentMinute`. -/
theorem C5_filled_dots_match_counters (s : State) (h : Reachable s) :
    filledCount s.outer 60 = s.currentSecond
    ∧ filledCount s.inner s.timerDuration = s.currentMinute := by
  have hI := inv_of_reachable s h
  exact ⟨filledCount_eq s.outer 60 s.currentSecond hI.secLo (by have := hI.secHi; omega) hI.outerDots,
    filledCount_eq s.inner s.timerDuration s.currentMinute hI.minLo (le_of_lt hI.minHi)
      hI.innerDots⟩

/-- Witness of C5: three seconds into a countdown, paused, then the refresh
button. -/
theorem C5_witness :
    Reachable (handleButtonPress (handleButtonPress
      (runCalls (handleButtonPress paperS3 0) [1000, 1000, 1000]) 1) 6)
    ∧ (handleButtonPress (handleButtonPress
        (runCalls (handleButtonPress paperS3 0) [1000, 1000, 1000]) 1) 6).timerPaused = true
    ∧ (handleButtonPress (handleButtonPress
        (runCalls (handleButtonPress paperS3 0) [1000, 1000, 1000]) 1) 6).currentSecond = 3
    ∧ filledCount (handleButtonPress (handleButtonPress
        (runCalls (handleButtonPress paperS3 0) [1000, 1000, 1000]) 1) 6).outer 60 = 3 :=
  have hr : Reachable (handleButtonPress (handleButtonPress
      (runCalls (handleButtonPress paperS3 0) [1000, 1000, 1000]) 1) 6) :=
    Reachable.press 6 (Reachable.press 1 (reachable_runCalls _ _
      (Reachable.press 0 (Reachable.boot 540 960 true true 0))))
  ⟨hr, by decide, by decide, (C5_filled_dots_match_counters _ hr).1.trans (by decide)⟩

/-! ## Buttons -/

theorem pressPlay_frame (s : State) :
    (pressPlay s).lastActivityTime = s.lastActivityTime ∧ (pressPlay s).clock = s.clock
    ∧ (pressPlay s).timerDuration = s.timerDuration := by
  unfold pressPlay
  simp only []
  split
  · rw [chrome_eq, drawCircularTimer_eq]
    exact ⟨rfl, rfl, rfl⟩
  · split
    · exact ⟨rfl, rfl, rfl⟩
    · exact ⟨rfl, rfl, rfl⟩

theorem pressPause_frame (s : State) :
    (pressPause s).lastActivityTime = s.lastActivityTime ∧ (pressPause s).clock = s.clock
    ∧ (pressPause s).timerDuration = s.timerDuration := by
  unfold pressPause
  simp only []
  split
  · exact ⟨rfl, rfl, rfl⟩
  · exact ⟨rfl, rfl, rfl⟩

theorem pressStop_frame (s : State) :
    (pressStop s).lastActivityTime = s.lastActivityTime ∧ (pressStop s).clock = s.clock
    ∧ (pressStop s).timerDuration = s.timerDuration := by
  unfold pressStop
  simp only []
  rw [chrome_eq, drawCircularTimer_eq, stopAnimation_eq]
  exact ⟨rfl, rfl, rfl⟩

/-- State of the timer after a preset button. -/
theorem pressPreset_frame (s : State) (minutes : Int) :
    (pressPreset s minutes).lastActivityTime = s.lastActivityTime
    ∧ (pressPreset s minutes).clock = s.clock
    ∧ (pressPreset s minutes).timerDuration = minutes
    ∧ (pressPreset s minutes).animationRunning = false
    ∧ (pressPreset s minutes).timerPaused = false
    ∧ (pressPreset s minutes).currentSecond = 0
    ∧ (pressPreset s minutes).currentMinute = 0 := by
  unfold pressPreset
  simp only []
  rw [drawCircularTimer_eq, stopAnimation_eq]
  exact ⟨rfl, rfl, rfl, rfl, rfl, rfl, rfl⟩

theorem pressRefresh_frame (s : State) :
    (pressRefresh s).lastActivityTime = s.lastActivityTime
    ∧ (pressRefresh s).clock = s.clock + 100 + 100
    ∧ (pressRefresh s).timerDuration = s.timerDuration := by
  rw [pressRefresh_eq, chrome_eq, drawCircularTimer_eq]
  simp only []
  split
  · rw [redrawCompletedDots_eq]
    exact ⟨rfl, rfl, rfl⟩
  · exact ⟨rfl, rfl, rfl⟩

theorem redrawAfterPress_frame (s : State) (i : Fin 7) :
    (redrawAfterPress s i).lastActivityTime = s.lastActivityTime
    ∧ (redrawAfterPress s i).clock = s.clock
    ∧ (redrawAfterPress s i).timerDuration = s.timerDuration
    ∧ (redrawAfterPress s i).animationRunning = s.animationRunning
    ∧ (redrawAfterPress s i).timerPaused = s.timerPaused
    ∧ (redrawAfterPress s i).currentSecond = s.currentSecond
    ∧ (redrawAfterPress s i).currentMinute = s.currentMinute := by
  unfold redrawAfterPress
  simp only []
  split
  · rw [chrome_eq]
    exact ⟨rfl, rfl, rfl, rfl, rfl, rfl, rfl⟩
  · split
    · split
      · exact ⟨rfl, rfl, rfl, rfl, rfl, rfl, rfl⟩
      · exact ⟨rfl, rfl, rfl, rfl, rfl, rfl, rfl⟩
    · exact ⟨rfl, rfl, rfl, rfl, rfl, rfl, rfl⟩

/-- Every button stamps the activity clock with the time of the press and
returns no earlier than 200 ms and no later than 400 ms after it. -/
theorem handleButtonPress_frame (s : State) (i : Fin 7) :
    (handleButtonPress s i).lastActivityTime = millis s
    ∧ s.clock + 200 ≤ (handleButtonPress s i).clock
    ∧ (handleButtonPress s i).clock ≤ s.clock + 400 := by
  unfold handleButtonPress
  simp only []
  have b1 : (pressFeedback s i).lastActivityTime = millis s := rfl
  have b2 : (pressFeedback s i).clock = s.clock + 200 := rfl
  split
  · obtain ⟨f1, f2, -⟩ := pressPlay_frame (pressFeedback s i)
    obtain ⟨r1, r2, -⟩ := redrawAfterPress_frame (pressPlay (pressFeedback s i)) i
    rw [r1, r2, f1, f2, b1, b2]
    omega
  · obtain ⟨f1, f2, -⟩ := pressPause_frame (pressFeedback s i)
    obtain ⟨r1, r2, -⟩ := redrawAfterPress_frame (pressPause (pressFeedback s i)) i
    rw [r1, r2, f1, f2, b1, b2]
    omega
  · obtain ⟨f1, f2, -⟩ := pressStop_frame (pressFeedback s i)
    obtain ⟨r1, r2, -⟩ := redrawAfterPress_frame (pressStop (pressFeedback s i)) i
    rw [r1, r2, f1, f2, b1, b2]
    omega
  · obtain ⟨f1, f2, -⟩ := pressPreset_frame (pressFeedback s i) 25
    obtain ⟨r1, r2, -⟩ := redrawAfterPress_frame (pressPreset (pressFeedback s i) 25) i
    rw [r1, r2, f1, f2, b1, b2]
    omega
  · obtain ⟨f1, f2, -⟩ := pressPreset_frame (pressFeedback s i) 5
    obtain ⟨r1, r2, -⟩ := redrawAfterPress_frame (pressPreset (pressFeedback s i) 5) i
    rw [r1, r2, f1, f2, b1, b2]
    omega
  · obtain ⟨f1, f2, -⟩ := pressPreset_frame (pressFeedback s i) 30
    obtain ⟨r1, r2, -⟩ := redrawAfterPress_frame (pressPreset (pressFeedback s i) 30) i
    rw [r1, r2, f1, f2, b1, b2]
    omega
  · obtain ⟨f1, f2, -⟩ := pressRefresh_frame (pressFeedback s i)
    obtain ⟨r1, r2, -⟩ := redrawAfterPress_frame (pressRefresh (pressFeedback s i)) i
    rw [r1, r2, f1, f2, b1, b2]
    omega
  · obtain ⟨r1, r2, -⟩ := redrawAfterPress_frame (pressFeedback s i) i
    rw [r1, r2, b1, b2]
    omega

/-- The seven cases of the `switch` of `handleButtonPress`. -/
theorem handleButtonPress_cases (s : State) :
    handleButtonPress s 0 = redrawAfterPress (pressPlay (pressFeedback s 0)) 0
    ∧ handleButtonPress s 1 = redrawAfterPress (pressPause (pressFeedback s 1)) 1
    ∧ handleButtonPress s 2 = redrawAfterPress (pressStop (pressFeedback s 2)) 2
    ∧ handleButtonPress s 3 = redrawAfterPress (pressPreset (pressFeedback s 3) 25) 3
    ∧ handleButtonPress s 4 = redrawAfterPress (pressPreset (pressFeedback s 4) 5) 4
    ∧ handleButtonPress s 5 = redrawAfterPress (pressPreset (pressFeedback s 5) 30) 5
    ∧ handleButtonPress s 6 = redrawAfterPress (pressRefresh (pressFeedback s 6)) 6 :=
  ⟨rfl, rfl, rfl, rfl, rfl, rfl, rfl⟩

theorem checkDeepSleep_eq (s : State) :
    checkDeepSleep s = if sleepDue s then deepSleep (displayLockScreen s) else s := by
  unfold checkDeepSleep sleepDue
  by_cases h1 : s.animationRunning = true <;> by_cases h2 : s.timerPaused = true <;>
    by_cases h3 : SLEEP_TIMEOUT < usub (millis s) s.lastActivityTime <;>
    simp [h1, h2, h3]

theorem displayLockScreen_deepSleeps (s : State) :
    deepSleeps (displayLockScreen s).log = deepSleeps s.log := by
  unfold displayLockScreen
  by_cases h1 : s.sdCardInitialized = true <;> by_cases h2 : s.lockImageExists = true <;>
    simp [h1, h2, fillScreen, emit, delay, deepSleeps, isDeepSleep, List.filter_append]

theorem checkDeepSleep_deepSleeps (s : State) :
    deepSleeps (checkDeepSleep s).log = deepSleeps s.log + (if sleepDue s then 1 else 0) := by
  rw [checkDeepSleep_eq]
  by_cases h : sleepDue s
  · rw [if_pos h, if_pos h]
    have : (deepSleep (displayLockScreen s)).log
        = (displayLockScreen s).log ++ [Effect.deepSleep] := rfl
    rw [this, deepSleeps, List.filter_append, List.length_append, ← deepSleeps,
      displayLockScreen_deepSleeps]
    rfl
  · rw [if_neg h, if_neg h]
    rfl

/-- A press edge stamps the activity clock with the time of the poll, whatever
it hits, and the poll returns at most 400 ms later. -/
theorem checkButtonTouch_edge (s : State) (t : Touch) (h1 : 0 < t.count)
    (h2 : t.wasPressed = true) :
    (checkButtonTouch s t).lastActivityTime = millis s
    ∧ s.clock ≤ (checkButtonTouch s t).clock := by
  unfold checkButtonTouch
  simp only [gt_iff_lt, h1, h2, if_true]
  split
  · rename_i i _
    obtain ⟨f1, f2, -⟩ := handleButtonPress_frame { s with lastActivityTime := millis s } i
    exact ⟨f1, by have : s.clock + 200 ≤ _ := f2; omega⟩
  · exact ⟨rfl, le_refl _⟩

theorem not_sleepDue_of_recent (s : State) (L : Nat) (h1 : s.lastActivityTime = L % ULONG_RANGE)
    (h2 : L ≤ s.clock) (h3 : s.clock ≤ L + SLEEP_TIMEOUT) : ¬ sleepDue s := by
  rintro ⟨-, -, h⟩
  rw [h1] at h
  simp only [usub, millis, ULONG_RANGE, SLEEP_TIMEOUT] at h h3
  omega

theorem displayLockScreen_eq (s : State) :
    displayLockScreen s =
      if s.sdCardInitialized = true then
        { s with
          outer := fun _ => Colour.white
          inner := fun _ => Colour.white
          clock := s.clock + 2000
          log := s.log ++ [Effect.fillScreen Colour.white]
            ++ (if s.lockImageExists = true then
                  [Effect.drawPngFile (Int.tdiv (s.screenWidth - 540) 2)
                    (Int.tdiv (s.screenHeight - 540) 2)]
                else [Effect.drawString "POMODORO", Effect.drawString "Sleep Mode"])
            ++ [Effect.delay 2000] }
      else s := by
  unfold displayLockScreen
  by_cases h1 : s.sdCardInitialized = true <;> by_cases h2 : s.lockImageExists = true <;>
    simp [h1, h2, fillScreen, emit, delay]

/-- C6 (as stated, refuted): on a PaperS3 whose SD card failed to initialise,
idle for 301 s, `checkDeepSleep()` invokes deep sleep without showing the lock
screen: the only library call it makes is `deepSleep()`. -/
theorem C6_counterexample_no_lock_screen_without_sd :
    sleepDue (advance (setup 540 960 false false 0) 301000)
    ∧ (checkDeepSleep (advance (setup 540 960 false false 0) 301000)).suspended = true
    ∧ (checkDeepSleep (advance (setup 540 960 false false 0) 301000)).log
        = (advance (setup 540 960 false false 0) 301000).log ++ [Effect.deepSleep]
    ∧ (checkDeepSleep (advance (setup 540 960 false false 0) 301000)).log.length
        = (advance (setup 540 960 false false 0) 301000).log.length + 1 := by
  refine ⟨by decide, by decide, rfl, by decide⟩

/-- C6 (amended): `checkDeepSleep()` runs `displayLockScreen()` and then invokes
deep sleep if and only if the timer is neither Running nor Paused and
`millis() - lastActivityTime` exceeds the 300000 ms threshold;
`displayLockScreen()` shows the lock screen when `sdCardInitialized` is set and
does nothing otherwise.  So suspend is never invoked while the timer is Running
or Paused; it is invoked after 301 s of idle time with no touch; and after a
touch at 299 s, which resets `lastActivityTime`, it is not invoked at 301 s. -/
theorem C6_deep_sleep_gate (s : State) :
    SLEEP_TIMEOUT = 300000
    ∧ checkDeepSleep s = (if sleepDue s then deepSleep (displayLockScreen s) else s)
    ∧ deepSleeps (checkDeepSleep s).log = deepSleeps s.log + (if sleepDue s then 1 else 0)
    ∧ (s.sdCardInitialized = true →
        (displayLockScreen s).log
          = s.log ++ [Effect.fillScreen Colour.white]
            ++ (if s.lockImageExists = true then
                  [Effect.drawPngFile (Int.tdiv (s.screenWidth - 540) 2)
                    (Int.tdiv (s.screenHeight - 540) 2)]
                else [Effect.drawString "POMODORO", Effect.drawString "Sleep Mode"])
            ++ [Effect.delay 2000])
    ∧ (s.sdCardInitialized = false → displayLockScreen s = s)
    ∧ (s.animationRunning = true ∨ s.timerPaused = true → checkDeepSleep s = s)
    ∧ (s.animationRunning = false → s.timerPaused = false → s.lastActivityTime = millis s →
        deepSleeps (checkDeepSleep (advance s 301000)).log = deepSleeps s.log + 1
        ∧ (checkDeepSleep (advance s 301000)).suspended = true)
    ∧ (∀ (t : Touch) (d : Nat), 0 < t.count → t.wasPressed = true →
        (checkButtonTouch (advance s 299000) t).clock + d ≤ s.clock + 301000 →
        checkDeepSleep (advance (checkButtonTouch (advance s 299000) t) d)
          = advance (checkButtonTouch (advance s 299000) t) d) := by
  refine ⟨rfl, checkDeepSleep_eq s, checkDeepSleep_deepSleeps s, ?_, ?_, ?_, ?_, ?_⟩
  · intro h
    rw [displayLockScreen_eq, if_pos h]
  · intro h
    rw [displayLockScreen_eq, if_neg (by simp [h])]
  · intro h
    rw [checkDeepSleep_eq, if_neg]
    rintro ⟨h1, h2, -⟩
    rcases h with h | h
    · rw [h1] at h
      exact absurd h (by decide)
    · rw [h2] at h
      exact absurd h (by decide)
  · intro h1 h2 h3
    have hdue : sleepDue (advance s 301000) := by
      refine ⟨h1, h2, ?_⟩
      show SLEEP_TIMEOUT < usub (millis (advance s 301000)) s.lastActivityTime
      rw [h3]
      simp only [usub, millis, advance, ULONG_RANGE, SLEEP_TIMEOUT]
      omega
    constructor
    · rw [checkDeepSleep_deepSleeps, if_pos hdue]
      rfl
    · rw [checkDeepSleep_eq, if_pos hdue]
      rfl
  · intro t d h1 h2 hd
    obtain ⟨e1, e2⟩ := checkButtonTouch_edge (advance s 299000) t h1 h2
    rw [checkDeepSleep_eq, if_neg]
    apply not_sleepDue_of_recent _ (s.clock + 299000)
    · exact e1
    · have : s.clock + 299000 ≤ (checkButtonTouch (advance s 299000) t).clock := e2
      show s.clock + 299000 ≤ (checkButtonTouch (advance s 299000) t).clock + d
      omega
    · show (checkButtonTouch (advance s 299000) t).clock + d ≤ s.clock + 299000 + SLEEP_TIMEOUT
      simp only [SLEEP_TIMEOUT]
      omega

theorem firstButtonHit_none (buttons : Fin 7 → Button) (x y : Int)
    (h : ∀ i : Fin 7, touchInside (buttons i) x y = false) : firstButtonHit buttons x y = none := by
  simp [firstButtonHit, h]

/-- C7 (as stated, refuted): on an idle PaperS3 whose last activity was 299 s
ago, a press at (0, 0) lies inside none of the seven buttons, yet
`checkButtonTouch()` moves `lastActivityTime` from 0 to 299000; two seconds
later deep sleep is due without that touch and not due with it. -/
theorem C7_counterexample_unmatched_touch :
    (∀ i : Fin 7, touchInside ((advance paperS3 299000).buttons i) 0 0 = false)
    ∧ (advance paperS3 299000).lastActivityTime = 0
    ∧ (checkButtonTouch (advance paperS3 299000) ⟨1, true, 0, 0⟩).lastActivityTime = 299000
    ∧ (checkDeepSleep (advance (advance paperS3 299000) 2000)).suspended = true
    ∧ (checkDeepSleep (advance (checkButtonTouch (advance paperS3 299000) ⟨1, true, 0, 0⟩)
        2000)).suspended = false := by
  decide

/-- C7 (amended): for every press-edge point that lies inside none of the 7
button bounds, `checkButtonTouch()` dispatches no button and changes nothing
but `lastActivityTime`, which it sets to `millis()`: the timer state and
`timerDuration` are unchanged, and the unmatched touch restarts the idle
window. -/
theorem C7_unmatched_touch_only_stamps_activity (s : State) (t : Touch)
    (hcount : 0 < t.count) (hedge : t.wasPressed = true)
    (hmiss : ∀ i : Fin 7, touchInside (s.buttons i) t.x t.y = false) :
    checkButtonTouch s t = { s with lastActivityTime := millis s } := by
  unfold checkButtonTouch
  simp only [gt_iff_lt, hcount, hedge, if_true]
  rw [firstButtonHit_none s.buttons t.x t.y hmiss]

/-- Witness of C7 (amended): a press far outside the 540 x 960 panel. -/
theorem C7_witness :
    (∀ i : Fin 7, touchInside ((advance paperS3 1234).buttons i) (-7) 5000 = false)
    ∧ checkButtonTouch (advance paperS3 1234) ⟨1, true, -7, 5000⟩
        = { advance paperS3 1234 with lastActivityTime := 1234 } :=
  ⟨by decide,
    C7_unmatched_touch_only_stamps_activity (advance paperS3 1234) ⟨1, true, -7, 5000⟩
      (by decide) rfl (by decide)⟩

theorem handleButtonPress_timerDuration (s : State) (i : Fin 7) :
    (handleButtonPress s i).timerDuration
      = if i = 3 then 25 else if i = 4 then 5 else if i = 5 then 30 else s.timerDuration := by
  obtain ⟨c0, c1, c2, c3, c4, c5, c6⟩ := handleButtonPress_cases s
  fin_cases i
  · show (handleButtonPress s 0).timerDuration = s.timerDuration
    rw [c0]
    exact (redrawAfterPress_frame _ _).2.2.1.trans (pressPlay_frame _).2.2
  · show (handleButtonPress s 1).timerDuration = s.timerDuration
    rw [c1]
    exact (redrawAfterPress_frame _ _).2.2.1.trans (pressPause_frame _).2.2
  · show (handleButtonPress s 2).timerDuration = s.timerDuration
    rw [c2]
    exact (redrawAfterPress_frame _ _).2.2.1.trans (pressStop_frame _).2.2
  · show (handleButtonPress s 3).timerDuration = 25
    rw [c3]
    exact (redrawAfterPress_frame _ _).2.2.1.trans (pressPreset_frame _ _).2.2.1
  · show (handleButtonPress s 4).timerDuration = 5
    rw [c4]
    exact (redrawAfterPress_frame _ _).2.2.1.trans (pressPreset_frame _ _).2.2.1
  · show (handleButtonPress s 5).timerDuration = 30
    rw [c5]
    exact (redrawAfterPress_frame _ _).2.2.1.trans (pressPreset_frame _ _).2.2.1
  · show (handleButtonPress s 6).timerDuration = s.timerDuration
    rw [c6]
    exact (redrawAfterPress_frame _ _).2.2.1.trans (pressRefresh_frame _).2.2

/-- Timer state left by a preset button. -/
theorem redraw_preset (a : State) (m : Int) (k : Fin 7) :
    (redrawAfterPress (pressPreset a m) k).timerDuration = m
    ∧ (redrawAfterPress (pressPreset a m) k).animationRunning = false
    ∧ (redrawAfterPress (pressPreset a m) k).timerPaused = false
    ∧ (redrawAfterPress (pressPreset a m) k).currentSecond = 0
    ∧ (redrawAfterPress (pressPreset a m) k).currentMinute = 0 := by
  obtain ⟨-, -, r3, r4, r5, r6, r7⟩ := redrawAfterPress_frame (pressPreset a m) k
  obtain ⟨-, -, p3, p4, p5, p6, p7⟩ := pressPreset_frame a m
  exact ⟨r3.trans p3, r4.trans p4, r5.trans p5, r6.trans p6, r7.trans p7⟩

/-- C8: in every timer state, each preset button (`handleButtonPress` 3, 4, 5
for 25, 5 and 30 minutes) is applied unconditionally: afterwards
`timerDuration` is the preset, the timer is Idle (`animationRunning == false`,
`timerPaused == false`) and both counters are 0; no other button changes
`timerDuration`. -/
theorem C8_presets_apply_unconditionally (s : State) :
    ((handleButtonPress s 3).timerDuration = 25
      ∧ (handleButtonPress s 3).animationRunning = false
      ∧ (handleButtonPress s 3).timerPaused = false
      ∧ (handleButtonPress s 3).currentSecond = 0
      ∧ (handleButtonPress s 3).currentMinute = 0)
    ∧ ((handleButtonPress s 4).timerDuration = 5
      ∧ (handleButtonPress s 4).animationRunning = false
      ∧ (handleButtonPress s 4).timerPaused = false
      ∧ (handleButtonPress s 4).currentSecond = 0
      ∧ (handleButtonPress s 4).currentMinute = 0)
    ∧ ((handleButtonPress s 5).timerDuration = 30
      ∧ (handleButtonPress s 5).animationRunning = false
      ∧ (handleButtonPress s 5).timerPaused = false
      ∧ (handleButtonPress s 5).currentSecond = 0
      ∧ (handleButtonPress s 5).currentMinute = 0)
    ∧ ∀ i : Fin 7, i ≠ 3 → i ≠ 4 → i ≠ 5 →
        (handleButtonPress s i).timerDuration = s.timerDuration := by
  obtain ⟨-, -, -, c3, c4, c5, -⟩ := handleButtonPress_cases s
  refine ⟨?_, ?_, ?_, ?_⟩
  · rw [c3]
    exact redraw_preset _ 25 _
  · rw [c4]
    exact redraw_preset _ 5 _
  · rw [c5]
    exact redraw_preset _ 30 _
  intro i h3 h4 h5
  rw [handleButtonPress_timerDuration, if_neg h3, if_neg h4, if_neg h5]

/-- C9: in every Running state in which `updateAnimation()` performs a tick,
the tick performs exactly one full-screen repaint if it completes a minute and
the new count of completed minutes is a multiple of 5, and no full-screen
repaint otherwise. -/
theorem C9_full_repaint_every_fifth_minute (s : State) (hT : Ticks s) :
    fullRepaints (updateAnimation s).log
      = fullRepaints s.log
        + (if 60 ≤ s.currentSecond + 1 ∧ Int.tmod (s.currentMinute + 1) 5 = 0 then 1 else 0) :=
  tick_fullRepaints s hT

/-- Witness of C9: the tick that ends the fifth minute of the default 25-minute
countdown repaints the screen once, the tick after it does not. -/
theorem C9_witness :
    Ticks (advance (runCalls (startAnimation paperS3) (List.replicate 299 1000)) 1000)
    ∧ fullRepaints (updateAnimation
          (advance (runCalls (startAnimation paperS3) (List.replicate 299 1000)) 1000)).log
        = fullRepaints
            (advance (runCalls (startAnimation paperS3) (List.replicate 299 1000)) 1000).log + 1 :=
  ⟨⟨by decide!, by decide!, by decide!⟩,
    (C9_full_repaint_every_fifth_minute
      (advance (runCalls (startAnimation paperS3) (List.replicate 299 1000)) 1000)
      ⟨by decide!, by decide!, by decide!⟩).trans (by decide!)⟩

/-- The tick that ends the countdown ends its log with the completion signal. -/
theorem tick_completionLog (t : State) (hT : Ticks t) (hs : 60 ≤ t.currentSecond + 1)
    (hm : t.timerDuration ≤ t.currentMinute + 1) :
    completionLog <:+ (updateAnimation t).log := by
  rw [tick_minute t hT hs]
  show completionLog <:+ (minuteCompleted (secondCompleted t)).log
  rw [minuteCompleted_log, if_pos (show (secondCompleted t).timerDuration
    ≤ (secondCompleted t).currentMinute + 1 from hm)]
  exact List.suffix_append _ _

/-- C10: for every `timerDuration ≥ 1`, in a run of ticks from `startAnimation()`
to completion, the tick that reaches `currentMinute == timerDuration` emits
exactly 4 tones, the completion signal `tone(600, 500)` four times one second
apart, and sets `lastActivityTime` to the time of that call; no earlier tick of
the run emits a tone or changes `lastActivityTime`, and the timer runs until
that tick. -/
theorem C10_completion_signal (s0 : State) (ds : List Nat) (d : Nat)
    (hD : 1 ≤ s0.timerDuration)
    (hticks : everyCallTicks (startAnimation s0) (ds ++ [d]) = true)
    (hlen : (ds.length : Int) + 1 = s0.timerDuration * 60) :
    (runCalls (startAnimation s0) (ds ++ [d])).animationRunning = false
    ∧ toneCount (runCalls (startAnimation s0) (ds ++ [d])).log = toneCount s0.log + 4
    ∧ completionLog <:+ (runCalls (startAnimation s0) (ds ++ [d])).log
    ∧ (runCalls (startAnimation s0) (ds ++ [d])).lastActivityTime
        = millis (advance (runCalls (startAnimation s0) ds) d)
    ∧ ∀ n, n ≤ ds.length →
        (runCalls (startAnimation s0) (ds.take n)).animationRunning = true
        ∧ toneCount (runCalls (startAnimation s0) (ds.take n)).log = toneCount s0.log
        ∧ (runCalls (startAnimation s0) (ds.take n)).lastActivityTime = s0.lastActivityTime := by
  have h0 := runInv_start s0 hD
  rw [everyCallTicks_append, Bool.and_eq_true] at hticks
  obtain ⟨ht1, ht2⟩ := hticks
  simp only [everyCallTicks, Bool.and_true, decide_eq_true_eq] at ht2
  obtain ⟨r1, r2, r3⟩ := runInv_run s0.timerDuration ds 0 _ h0 ht1 (by omega)
  have hA : RunInv s0.timerDuration (0 + ds.length)
      (advance (runCalls (startAnimation s0) ds) d) :=
    ⟨r1.1, r1.2, r1.3, r1.4, r1.5, r1.6, r1.7, r1.8⟩
  obtain ⟨e1, -, -, -, e5, e6⟩ := runInv_last _ _ _ hA ht2 (by omega)
  have hsuf := tick_completionLog (advance (runCalls (startAnimation s0) ds) d)
    ⟨hA.running, hA.notPaused, ht2⟩
    (by
      have h8 := hA.count
      have h5 := hA.secHi
      have h7 := hA.minHi
      have h3 := hA.duration
      simp only [ticksCounted] at h8
      omega)
    (by
      have h8 := hA.count
      have h5 := hA.secHi
      have h7 := hA.minHi
      have h3 := hA.duration
      simp only [ticksCounted] at h8
      omega)
  rw [runCalls_append]
  refine ⟨e1, ?_, hsuf, e5, fun n hn => ?_⟩
  · have : toneCount (advance (runCalls (startAnimation s0) ds) d).log
        = toneCount (runCalls (startAnimation s0) ds).log := rfl
    have hs : toneCount (startAnimation s0).log = toneCount s0.log := rfl
    show toneCount (updateAnimation (advance (runCalls (startAnimation s0) ds) d)).log = _
    rw [e6, this, r3, hs]
  · have hlt : (0 : Int) + (ds.take n).length < s0.timerDuration * 60 := by
      rw [List.length_take]
      omega
    obtain ⟨q1, q2, q3⟩ := runInv_run s0.timerDuration (ds.take n) 0 _ h0
      (everyCallTicks_take _ _ n ht1) hlt
    exact ⟨q1.1, q3, q2⟩

/-- Witness of C10: the 5-minute preset driven by 300 calls one second apart
completes on the 300th call, which sounds the four tones and refreshes the
activity clock (pressed at time 0, it reads 300200 after completion). -/
theorem C10_witness :
    (runCalls (startAnimation (handleButtonPress paperS3 4))
        (List.replicate 299 1000 ++ [1000])).animationRunning = false
    ∧ toneCount (runCalls (startAnimation (handleButtonPress paperS3 4))
        (List.replicate 299 1000 ++ [1000])).log
        = toneCount (handleButtonPress paperS3 4).log + 4
    ∧ (handleButtonPress paperS3 4).lastActivityTime = 0
    ∧ (runCalls (startAnimation (handleButtonPress paperS3 4))
        (List.replicate 299 1000 ++ [1000])).lastActivityTime = 300200
    ∧ ∀ n, n ≤ (List.replicate 299 1000).length →
        (runCalls (startAnimation (handleButtonPress paperS3 4))
          ((List.replicate 299 1000).take n)).animationRunning = true :=
  have h := C10_completion_signal (handleButtonPress paperS3 4) (List.replicate 299 1000) 1000
    (by decide!) (by decide!) (by decide!)
  ⟨h.1, h.2.1, by decide!, h.2.2.2.1.trans (by decide!), fun n hn => (h.2.2.2.2 n hn).1⟩

/-! ## Stop, lock screen and presets -/

/-- A ring with no white dot among its first `n` has no dot filled. -/
theorem filledCount_zero (ring : Int → Colour) (n : Int)
    (h : ∀ j, 0 ≤ j → j < n → ring j = Colour.black) : filledCount ring n = 0 := by
  unfold filledCount
  have hc : (List.range n.toNat).filter
      (fun (i : Nat) => decide (ring (Int.ofNat i) = Colour.white)) = [] := by
    rw [List.filter_eq_nil_iff]
    intro i hi
    rw [List.mem_range] at hi
    have hb := h (Int.ofNat i) (Int.ofNat_zero_le i) (by show (i : Int) < n; omega)
    rw [hb]
    decide
  rw [hc]
  rfl

/-- Rings after `stopAnimation()` and the repaint of the stop button. -/
theorem pressStop_rings (s : State) (j : Int) :
    (0 ≤ j → j < 60 → (pressStop s).outer j = Colour.black)
    ∧ (0 ≤ j → j < s.timerDuration → (pressStop s).inner j = Colour.black) := by
  unfold pressStop
  simp only []
  rw [chrome_eq, drawCircularTimer_eq, stopAnimation_eq]
  constructor
  · intro h0 h60
    simp [fillScreen, h0, h60]
  · intro h0 hD
    have hD' : j < (emit s (Effect.tone 400 100)).timerDuration := hD
    simp [fillScreen, h0, hD']

/-- The redraw that ends `handleButtonPress` paints no ring dot. -/
theorem redrawAfterPress_rings (s : State) (i : Fin 7) :
    (redrawAfterPress s i).outer = s.outer ∧ (redrawAfterPress s i).inner = s.inner := by
  unfold redrawAfterPress
  simp only []
  split
  · rw [chrome_eq]
    exact ⟨rfl, rfl⟩
  · split
    · split
      · exact ⟨rfl, rfl⟩
      · exact ⟨rfl, rfl⟩
    · exact ⟨rfl, rfl⟩

theorem pressStop_timer (s : State) :
    (pressStop s).animationRunning = false ∧ (pressStop s).timerPaused = false
    ∧ (pressStop s).currentSecond = 0 ∧ (pressStop s).currentMinute = 0 := by
  unfold pressStop
  simp only []
  rw [chrome_eq, drawCircularTimer_eq, stopAnimation_eq]
  exact ⟨rfl, rfl, rfl, rfl⟩

/-- C11: from every prior state, whatever its phase, counters and ring fill,
`stopAnimation()` leaves the timer Idle with `currentSecond == currentMinute == 0`
and `timerDuration` unchanged, and so does the stop button
(`handleButtonPress(2)`), after whose full repaint no dot of either ring is
filled. -/
theorem C11_stop_resets_timer_and_rings (s : State) :
    ((stopAnimation s).animationRunning = false ∧ (stopAnimation s).timerPaused = false
      ∧ (stopAnimation s).currentSecond = 0 ∧ (stopAnimation s).currentMinute = 0
      ∧ (stopAnimation s).timerDuration = s.timerDuration)
    ∧ ((handleButtonPress s 2).animationRunning = false
      ∧ (handleButtonPress s 2).timerPaused = false
      ∧ (handleButtonPress s 2).currentSecond = 0
      ∧ (handleButtonPress s 2).currentMinute = 0
      ∧ (handleButtonPress s 2).timerDuration = s.timerDuration)
    ∧ (∀ j, 0 ≤ j → j < 60 → (handleButtonPress s 2).outer j = Colour.black)
    ∧ (∀ j, 0 ≤ j → j < s.timerDuration → (handleButtonPress s 2).inner j = Colour.black)
    ∧ filledCount (handleButtonPress s 2).outer 60 = 0
    ∧ filledCount (handleButtonPress s 2).inner (handleButtonPress s 2).timerDuration = 0 := by
  have hstop : (stopAnimation s).animationRunning = false ∧ (stopAnimation s).timerPaused = false
      ∧ (stopAnimation s).currentSecond = 0 ∧ (stopAnimation s).currentMinute = 0
      ∧ (stopAnimation s).timerDuration = s.timerDuration := by
    rw [stopAnimation_eq]
    exact ⟨rfl, rfl, rfl, rfl, rfl⟩
  obtain ⟨-, -, c2, -⟩ := handleButtonPress_cases s
  obtain ⟨-, -, r3, r4, r5, r6, r7⟩ := redrawAfterPress_frame (pressStop (pressFeedback s 2)) 2
  obtain ⟨p1, p2, p3, p4⟩ := pressStop_timer (pressFeedback s 2)
  obtain ⟨-, -, f3⟩ := pressStop_frame (pressFeedback s 2)
  have hd : (handleButtonPress s 2).timerDuration = s.timerDuration := by
    rw [c2, r3, f3]
    rfl
  have ho : ∀ j, 0 ≤ j → j < 60 → (handleButtonPress s 2).outer j = Colour.black := by
    intro j h0 h60
    rw [c2]
    rw [(redrawAfterPress_rings (pressStop (pressFeedback s 2)) 2).1]
    exact (pressStop_rings (pressFeedback s 2) j).1 h0 h60
  have hi : ∀ j, 0 ≤ j → j < s.timerDuration →
      (handleButtonPress s 2).inner j = Colour.black := by
    intro j h0 hD
    rw [c2]
    rw [(redrawAfterPress_rings (pressStop (pressFeedback s 2)) 2).2]
    exact (pressStop_rings (pressFeedback s 2) j).2 h0 hD
  refine ⟨hstop, ⟨?_, ?_, ?_, ?_, hd⟩, ho, hi, filledCount_zero _ _ ho, ?_⟩
  · rw [c2, r4]
    exact p1
  · rw [c2, r5]
    exact p2
  · rw [c2, r6]
    exact p3
  · rw [c2, r7]
    exact p4
  · rw [hd]
    exact filledCount_zero _ _ hi

/-- C12 (as stated, refuted): on a PaperS3 whose SD card failed to initialise
and holds no lock image, `displayLockScreen()` returns at once: it draws no
text placeholder and does not hold the screen for the settle delay. -/
theorem C12_counterexample_no_placeholder_without_storage :
    (setup 540 960 false false 0).sdCardInitialized = false
    ∧ (setup 540 960 false false 0).lockImageExists = false
    ∧ (displayLockScreen (setup 540 960 false false 0)).log = (setup 540 960 false false 0).log
    ∧ (displayLockScreen (setup 540 960 false false 0)).clock
        = (setup 540 960 false false 0).clock
    ∧ Effect.drawString "Sleep Mode" ∉ (displayLockScreen (setup 540 960 false false 0)).log
    ∧ Effect.delay 2000 ∉ (displayLockScreen (setup 540 960 false false 0)).log := by
  refine ⟨rfl, rfl, rfl, rfl, by decide, by decide⟩

/-- C12 (amended): when `sdCardInitialized` is set, `displayLockScreen()` clears
the screen, draws the lock image when it exists and otherwise the text
placeholder, and holds the screen for the 2000 ms settle delay before returning
to the caller that suspends; when storage is unavailable it draws nothing and
returns at once, without the delay. -/
theorem C12_lock_screen_needs_storage (s : State) :
    (s.sdCardInitialized = true → s.lockImageExists = true →
        (displayLockScreen s).log
          = s.log ++ [Effect.fillScreen Colour.white,
              Effect.drawPngFile (Int.tdiv (s.screenWidth - 540) 2)
                (Int.tdiv (s.screenHeight - 540) 2),
              Effect.delay 2000]
        ∧ (displayLockScreen s).clock = s.clock + 2000)
    ∧ (s.sdCardInitialized = true → s.lockImageExists = false →
        (displayLockScreen s).log
          = s.log ++ [Effect.fillScreen Colour.white, Effect.drawString "POMODORO",
              Effect.drawString "Sleep Mode", Effect.delay 2000]
        ∧ (displayLockScreen s).clock = s.clock + 2000)
    ∧ (s.sdCardInitialized = false → displayLockScreen s = s)
    ∧ (sleepDue s →
        (checkDeepSleep s).log = (displayLockScreen s).log ++ [Effect.deepSleep]) := by
  refine ⟨?_, ?_, ?_, ?_⟩
  · intro h1 h2
    rw [displayLockScreen_eq, if_pos h1]
    simp [h2]
  · intro h1 h2
    rw [displayLockScreen_eq, if_pos h1]
    simp [h2]
  · intro h1
    rw [displayLockScreen_eq, if_neg (by simp [h1])]
  · intro h
    rw [checkDeepSleep_eq, if_pos h]
    rfl

theorem minuteCompleted_inner_eq (t : State) (hm : t.currentMinute + 1 < t.timerDuration)
    (h5 : Int.tmod (t.currentMinute + 1) 5 ≠ 0) :
    (minuteCompleted t).inner
      = Function.update t.inner (t.timerDuration - (t.currentMinute + 1)) Colour.white := by
  have h1 : t.currentMinute + 1 ≤ t.timerDuration := by omega
  have h3 : ¬ t.timerDuration ≤ t.currentMinute + 1 := by omega
  have e : t.timerDuration - 1 - (t.currentMinute + 1 - 1)
      = t.timerDuration - (t.currentMinute + 1) := by omega
  simp only [minuteCompleted, forLoop_outer_up, updateInnerDot, h1, h5, h3, if_true, if_false,
    ge_iff_le, e]

/-- Inner ring after a tick that ends a minute other than a fifth one and not
the last: the dot `timerDuration - currentMinute` has turned white. -/
theorem tick_inner_dot (s : State) (hT : Ticks s) (hs : 60 ≤ s.currentSecond + 1)
    (hm : s.currentMinute + 1 < s.timerDuration)
    (h5 : Int.tmod (s.currentMinute + 1) 5 ≠ 0) :
    (updateAnimation s).inner
      = Function.update s.inner (s.timerDuration - (s.currentMinute + 1)) Colour.white := by
  rw [tick_minute s hT hs]
  exact minuteCompleted_inner_eq (secondCompleted s) hm h5

theorem setup_timerDuration (screenWidth screenHeight : Int) (sdBegin imageOnCard : Bool)
    (bootClock : Nat) :
    (setup screenWidth screenHeight sdBegin imageOnCard bootClock).timerDuration = 25 := by
  simp [setup, emit, redrawAllButtons, drawTitle, drawCircularTimer_eq, fillScreen, powerOn]

/-- C13: in every state reachable from `setup` by button presses, touch polls,
`updateAnimation` calls and waits, `timerDuration` is one of the presets 5, 25
and 30 (25 after `setup`), hence at least 1, so the inner-ring divisor
`360 / timerDuration` is positive; and the inner dot index written when a
minute ends, `timerDuration - currentMinute` with the minute just counted, as
well as the indices repainted for the completed minutes, lie in
`0 .. timerDuration - 1`. -/
theorem C13_duration_is_a_preset (s : State) (h : Reachable s) :
    (s.timerDuration = 5 ∨ s.timerDuration = 25 ∨ s.timerDuration = 30)
    ∧ 1 ≤ s.timerDuration
    ∧ (0 : ℚ) < 360 / (s.timerDuration : ℚ)
    ∧ (∀ (w ht : Int) (sd img : Bool) (c : Nat), (setup w ht sd img c).timerDuration = 25)
    ∧ (Ticks s → 60 ≤ s.currentSecond + 1 →
        s.currentMinute + 1 ≤ s.timerDuration
        ∧ (s.timerDuration - 1) - ((s.currentMinute + 1) - 1)
            = s.timerDuration - (s.currentMinute + 1)
        ∧ 0 ≤ s.timerDuration - (s.currentMinute + 1)
        ∧ s.timerDuration - (s.currentMinute + 1) ≤ s.timerDuration - 1)
    ∧ (Ticks s → 60 ≤ s.currentSecond + 1 → s.currentMinute + 1 < s.timerDuration →
        Int.tmod (s.currentMinute + 1) 5 ≠ 0 →
        (updateAnimation s).inner
          = Function.update s.inner (s.timerDuration - (s.currentMinute + 1)) Colour.white)
    ∧ (∀ i : Int, 0 ≤ i → i < s.currentMinute →
        0 ≤ (s.timerDuration - 1) - i ∧ (s.timerDuration - 1) - i ≤ s.timerDuration - 1) := by
  have hI := inv_of_reachable s h
  have hd := hI.dur
  have h1 : 1 ≤ s.timerDuration := by omega
  have hlo := hI.minLo
  have hhi := hI.minHi
  refine ⟨hd, h1, ?_, fun _ _ _ _ _ => ?_, fun _ _ => ⟨by omega, by omega, by omega, by omega⟩,
    fun hT hs hm h5 => tick_inner_dot s hT hs hm h5, fun i h0 hi => ⟨by omega, by omega⟩⟩
  · have : (0 : ℚ) < (s.timerDuration : ℚ) := by exact_mod_cast (by omega : 0 < s.timerDuration)
    positivity
  · exact setup_timerDuration _ _ _ _ _

/-- Witness of C13: the 5-minute preset, started with the play button, at the
call that ends its first minute: inner dot 4 is written. -/
theorem C13_witness :
    Reachable (advance (runCalls (handleButtonPress (handleButtonPress paperS3 4) 0)
      (List.replicate 59 1000)) 1000)
    ∧ (advance (runCalls (handleButtonPress (handleButtonPress paperS3 4) 0)
        (List.replicate 59 1000)) 1000).timerDuration = 5
    ∧ (advance (runCalls (handleButtonPress (handleButtonPress paperS3 4) 0)
        (List.replicate 59 1000)) 1000).currentMinute = 0
    ∧ 0 ≤ (advance (runCalls (handleButtonPress (handleButtonPress paperS3 4) 0)
          (List.replicate 59 1000)) 1000).timerDuration
        - ((advance (runCalls (handleButtonPress (handleButtonPress paperS3 4) 0)
          (List.replicate 59 1000)) 1000).currentMinute + 1)
    ∧ (updateAnimation (advance (runCalls (handleButtonPress (handleButtonPress paperS3 4) 0)
        (List.replicate 59 1000)) 1000)).inner
        = Function.update
            (advance (runCalls (handleButtonPress (handleButtonPress paperS3 4) 0)
              (List.replicate 59 1000)) 1000).inner
            ((advance (runCalls (handleButtonPress (handleButtonPress paperS3 4) 0)
                (List.replicate 59 1000)) 1000).timerDuration
              - ((advance (runCalls (handleButtonPress (handleButtonPress paperS3 4) 0)
                (List.replicate 59 1000)) 1000).currentMinute + 1))
            Colour.white :=
  have hr : Reachable (advance (runCalls (handleButtonPress (handleButtonPress paperS3 4) 0)
      (List.replicate 59 1000)) 1000) :=
    Reachable.wait 1000 (reachable_runCalls _ _
      (Reachable.press 0 (Reachable.press 4 (Reachable.boot 540 960 true true 0))))
  have hT : Ticks (advance (runCalls (handleButtonPress (handleButtonPress paperS3 4) 0)
      (List.replicate 59 1000)) 1000) := ⟨by decide!, by decide!, by decide!⟩
  have hc := C13_duration_is_a_preset _ hr
  ⟨hr, by decide!, by decide!, (hc.2.2.2.2.1 hT (by decide!)).2.2.1,
    hc.2.2.2.2.2.1 hT (by decide!) (by decide!) (by decide!)⟩

end Pomodoro
